import Mathlib

/-!
Verification development for the CSV-driven static-site generator
(`scripts/generate_pages.py`, `scripts/generate_chat_pages.py`,
`scripts/autogen_seo.py`, `scripts/generate_feeds.py`,
`scripts/generate_rss.py`, `generate_rss.py`).

The Python sources are shallowly embedded: pure string-processing
functions become Lean functions over `String` (implemented over
`List Char` so that proofs can proceed by structural induction), CSV
rows become finite maps `String → String` (the scripts read rows as
dicts via `row.get(key, "")`), and the filesystem and clock are passed
in as explicit parameters where a function consults them.
-/

set_option maxHeartbeats 2000000
set_option maxRecDepth 10000

/-! ## Python string primitives shared by all scripts -/

/-- The whitespace characters recognised by Python `str.strip()`, restricted
to the ASCII range (the CSV fields handled by these scripts contain no
exotic Unicode whitespace, so on the exercised inputs this is exact). -/
def pySpace (c : Char) : Bool :=
  c = ' ' || c = '\t' || c = '\n' || c = '\r' || c = '\x0b' || c = '\x0c'

/-- Strip the characters satisfying `p` from both ends of a character list,
as Python `str.strip(chars)` does. -/
def stripOn (p : Char → Bool) (l : List Char) : List Char :=
  ((l.dropWhile p).reverse.dropWhile p).reverse

/-- Python `s.strip()` on the character-list level. -/
def pyStripL (l : List Char) : List Char :=
  stripOn pySpace l

/-- Python `s.strip()`. -/
def pyStrip (s : String) : String :=
  ⟨pyStripL s.data⟩

/-- Python `s.strip("/")`. -/
def pyStripSlash (s : String) : String :=
  ⟨stripOn (fun c => c = '/') s.data⟩

/-- Python truthiness-based `a or b` on strings: `b` if `a` is empty. -/
def orS (a b : String) : String :=
  if a = "" then b else a

/-- The character-level translation table of Python `html.escape(s)` with its
default `quote=True`: `&`, `<`, `>`, `"` and the apostrophe are replaced by
entities, every other character is kept.  (Replacing `&` first and the rest
afterwards, as CPython does, acts on disjoint characters, so it equals this
single per-character map.) -/
def escChar (c : Char) : List Char :=
  if c = '&' then ("&amp;").data
  else if c = '<' then ("&lt;").data
  else if c = '>' then ("&gt;").data
  else if c = '"' then ("&quot;").data
  else if c = '\x27' then ("&#x27;").data
  else [c]

/-- Python `html.escape(s)` (with the default `quote=True`) on lists. -/
def escL (l : List Char) : List Char :=
  l.flatMap escChar

/-- Python `html.escape(s)` with the default `quote=True`. -/
def html_escape (s : String) : String :=
  ⟨escL s.data⟩

/-- Does `pat` occur as a contiguous sublist of `l`?  (Python `pat in s`.) -/
def infixAt (pat : List Char) : List Char → Bool
  | [] => pat.isPrefixOf []
  | c :: rest => pat.isPrefixOf (c :: rest) || infixAt pat rest

/-- Python substring containment `sub in s`. -/
def strContains (s sub : String) : Bool :=
  infixAt sub.data s.data

/-- Python `s.split(sep)` for a one-character separator: always returns at
least one (possibly empty) piece. -/
def splitCh (sep : Char) : List Char → List (List Char)
  | [] => [[]]
  | c :: rest =>
    if c = sep then [] :: splitCh sep rest
    else
      match splitCh sep rest with
      | [] => [[c]]
      | t :: ts => (c :: t) :: ts

/-- Python `s.split(sep, 1)` for a one-character separator, on a string known
to contain the separator: the pieces before and after its first occurrence. -/
def splitOnce (sep : Char) : List Char → List Char × List Char
  | [] => ([], [])
  | c :: rest =>
    if c = sep then ([], rest)
    else
      let p := splitOnce sep rest
      (c :: p.1, p.2)

/-- Python `s.split(sep)` for a multi-character separator, replacing each
leftmost non-overlapping occurrence by a break; `fuel` bounds the recursion
and is instantiated with the length of the input (enough, since every step
consumes at least one character for the non-empty separators used here). -/
def splitSubF (sep : List Char) : Nat → List Char → List (List Char)
  | _, [] => [[]]
  | 0, l => [l]
  | fuel + 1, c :: rest =>
    if sep.isPrefixOf (c :: rest) then
      [] :: splitSubF sep fuel (List.drop sep.length (c :: rest))
    else
      match splitSubF sep fuel rest with
      | [] => [[c]]
      | t :: ts => (c :: t) :: ts

/-- Python `s.split(sep)` for a string separator. -/
def pySplitSub (sep s : String) : List String :=
  (splitSubF sep.data (s.data.length + 1) s.data).map (⟨·⟩)

/-- The separator scanner of Python `re.split(r"\n{2,}|\r?\n", t)`: a run of
two or more `\n` is one separator (first alternative, greedy), otherwise a
single `\r\n` or `\n` is a separator, and any other character is content.
`fuel` bounds the recursion and is instantiated with the input length
(enough, since every step consumes at least one character). -/
def splitNlF : Nat → List Char → List Char → List (List Char)
  | _, acc, [] => [acc.reverse]
  | 0, acc, l => [acc.reverse ++ l]
  | fuel + 1, acc, '\r' :: '\n' :: rest => acc.reverse :: splitNlF fuel [] rest
  | fuel + 1, acc, '\n' :: rest =>
    if rest.head? = some '\n' then
      acc.reverse :: splitNlF fuel [] (rest.dropWhile (fun c => c = '\n'))
    else
      acc.reverse :: splitNlF fuel [] rest
  | fuel + 1, acc, c :: rest => splitNlF fuel (c :: acc) rest

/-- Python `re.split(r"\n{2,}|\r?\n", t)`. -/
def splitNlL (l : List Char) : List (List Char) :=
  splitNlF l.length [] l

/-- The JSON string escaper of `json.dumps(..., ensure_ascii=False)`:
backslash, quote and control characters are escaped, everything else is
emitted verbatim. -/
def jsonEscChar (c : Char) : List Char :=
  if c = '"' then ['\\', '"']
  else if c = '\\' then ['\\', '\\']
  else if c = '\n' then ['\\', 'n']
  else if c = '\t' then ['\\', 't']
  else if c = '\r' then ['\\', 'r']
  else if c = '\x08' then ['\\', 'b']
  else if c = '\x0c' then ['\\', 'f']
  else if c.toNat < 0x20 then
    ['\\', 'u', '0', '0',
      (if c.toNat / 16 < 10 then Char.ofNat (48 + c.toNat / 16)
        else Char.ofNat (87 + c.toNat / 16)),
      (if c.toNat % 16 < 10 then Char.ofNat (48 + c.toNat % 16)
        else Char.ofNat (87 + c.toNat % 16))]
  else [c]

/-- A JSON string literal as `json.dumps` renders it. -/
def jsonStr (s : String) : String :=
  ⟨'"' :: s.data.flatMap jsonEscChar ++ ['"']⟩

/-- `re.sub` of a run of two or more copies of `d` by a single `d`
(`re.sub(r"-{2,}", "-", s)`, `re.sub(r"//+", "/", s)`): of every maximal
run of `d`s only the last survives. -/
def collapseOn (d : Char) : List Char → List Char
  | [] => []
  | [c] => [c]
  | a :: b :: rest =>
    if a = d ∧ b = d then collapseOn d (b :: rest)
    else a :: collapseOn d (b :: rest)

/-- `re.sub(r"//+", "/", s)` on character lists. -/
def collapseSlash (l : List Char) : List Char :=
  collapseOn '/' l

/-- Python `sep.join(xs)` on character lists. -/
def interL (sep : List Char) : List (List Char) → List Char
  | [] => []
  | [x] => x
  | x :: y :: rest => x ++ sep ++ interL sep (y :: rest)

/-- Python `"\n".join(xs)`. -/
def joinNLS (xs : List String) : String :=
  ⟨interL ("\n").data (xs.map String.data)⟩

/-- Python `",".join(xs)`. -/
def joinCommaS (xs : List String) : String :=
  ⟨interL (",").data (xs.map String.data)⟩

/-- Lexicographic order on character lists by code point. -/
def lexLe : List Char → List Char → Bool
  | [], _ => true
  | _ :: _, [] => false
  | x :: xs, y :: ys =>
    if x.toNat < y.toNat then true
    else if y.toNat < x.toNat then false
    else lexLe xs ys

/-- Python string comparison (`a <= b`): lexicographic by code point. -/
def pyStrLe (a b : String) : Bool :=
  lexLe a.data b.data

/-- Python `SystemExit` semantics for the process exit code: raising
`SystemExit(msg)` with a string message exits with code 1, a normal
return exits with code 0. -/
def pyExitCode {α : Type} : Except String α → Nat
  | Except.error _ => 1
  | Except.ok _ => 0

/-- Lowercase of Python `str.lower()`, modelled on the ASCII and
Russian-Cyrillic ranges these scripts handle (exact on that domain). -/
def pyLowerChar (c : Char) : Char :=
  if 'A' ≤ c ∧ c ≤ 'Z' then Char.ofNat (c.toNat + 32)
  else if 0x410 ≤ c.toNat ∧ c.toNat ≤ 0x42F then Char.ofNat (c.toNat + 32)
  else if c = 'Ё' then 'ё'
  else c

/-- Python `str.lower()` on the modelled domain. -/
def pyLower (s : String) : String :=
  ⟨s.data.map pyLowerChar⟩

/-! ## scripts/generate_pages.py -/

namespace GP

/-- A CSV row as the scripts see it: `row.get(key, "")`. -/
def Row : Type := String → String

/-- `SITE_BASE` with its default value (generate_pages.py line 10). -/
def SITE_BASE : String := "https://gorod-legends.ru"

/-- `TELEGRAM_URL` with its default value (line 11). -/
def TELEGRAM_URL : String := "https://t.me/luciddreams?start=_tgr_ChFKPawxOGRi"

/-- `ASSETS_CSS` (line 20). -/
def ASSETS_CSS : String := "assets/chat.css"

/-- `ASSETS_JS` (line 21). -/
def ASSETS_JS : String := "assets/chat.js"

/-- `norm_url` of scripts/generate_pages.py (lines 25–33): strip, then ensure
one leading and one trailing slash; the empty string stays empty. -/
def norm_url (u : String) : String :=
  let t := pyStripL u.data
  if t = [] then ""
  else
    let t1 := if t.head? = some '/' then t else '/' :: t
    let t2 := if t1.getLast? = some '/' then t1 else t1 ++ ['/']
    ⟨t2⟩

/-- `slug_from_url` (lines 35–37): normalise, strip slashes, last segment. -/
def slug_from_url (u : String) : String :=
  let t := stripOn (fun c => c = '/') (norm_url u).data
  ⟨(splitCh '/' t).getLastD []⟩

/-- `split_list` (lines 39–41): split on `|`, trim, drop empties. -/
def split_list (s : String) : List String :=
  let t := pyStripL s.data
  if t = [] then []
  else (((splitCh '|' t).map pyStripL).filter (· ≠ [])).map (⟨·⟩)

/-- The trimmed, non-empty paragraph pieces used by `para` (line 47). -/
def para_parts (text : String) : List (List Char) :=
  ((splitNlL (pyStripL text.data)).map pyStripL).filter (· ≠ [])

/-- `para` (lines 43–48): each blank-line- or newline-separated piece becomes
an escaped `<p>` element; the pieces are joined with a newline. -/
def para (text : String) : String :=
  ⟨interL ("\n").data
    ((para_parts text).map (fun p => ("<p>").data ++ escL p ++ ("</p>").data))⟩

/-- A parsed internal link: target and anchor text. -/
structure Link where
  href : String
  text : String
deriving DecidableEq, Repr

/-- The loop body of `parse_internal_links` in its `"||"` branch
(lines 61–65): tokens with a `|` are split once, left side the href,
right side the anchor; tokens without a `|` are dropped. -/
def parseTokens : List String → List Link
  | [] => []
  | p :: rest =>
    if strContains p "|" then
      let q := splitOnce '|' p.data
      ⟨norm_url ⟨q.1⟩, pyStrip ⟨q.2⟩⟩ :: parseTokens rest
    else parseTokens rest

/-- `parse_internal_links` (lines 50–69). -/
def parse_internal_links (s : String) : List Link :=
  let t := pyStrip s
  if t = "" then []
  else if strContains t "||" then
    parseTokens ((pySplitSub "||" t).filter (fun p => pyStrip p ≠ ""))
  else (split_list t).map (fun href => ⟨norm_url href, ""⟩)

/-- The spec-level reading of the parsing that the code actually implements
(for comparison with `parse_internal_links`): tokens are separated by
`"||"`; a token containing `"|"` is split once on its first `"|"`, the left
side being the url and the right side the anchor text; a token without a
`"|"` is dropped; a field containing no `"||"` at all is split on `"|"`
into bare urls with empty anchors. -/
def parse_internal_links_spec (s : String) : List Link :=
  let t := pyStrip s
  if t = "" then []
  else if strContains t "||" then
    ((pySplitSub "||" t).filter (fun p => pyStrip p ≠ "")).filterMap (fun p =>
      if strContains p "|" then
        some ⟨norm_url ⟨(splitOnce '|' p.data).1⟩, pyStrip ⟨(splitOnce '|' p.data).2⟩⟩
      else none)
  else (split_list t).map (fun href => ⟨norm_url href, ""⟩)

/-- Python uppercase of the first character, modelling `str.upper()` on the
ASCII and Russian-Cyrillic letters these slugs contain. -/
def pyUpperChar (c : Char) : Char :=
  if 'a' ≤ c ∧ c ≤ 'z' then Char.ofNat (c.toNat - 32)
  else if 0x430 ≤ c.toNat ∧ c.toNat ≤ 0x44F then Char.ofNat (c.toNat - 32)
  else if c = 'ё' then 'Ё'
  else c

/-- `pretty_from_slug` (lines 82–86): slug, dashes to spaces, capitalise. -/
def pretty_from_slug (u : String) : String :=
  let s := (slug_from_url u).data.map (fun c => if c = '-' then ' ' else c)
  match s with
  | [] => ""
  | c :: rest => ⟨pyUpperChar c :: rest⟩

/-- `render_badges` (lines 90–92). -/
def render_badges (items : List String) : String :=
  if items = [] then ""
  else
    ⟨("<div class=\"pill-row\">").data ++
      (items.flatMap
        (fun x => ("<span class=\"pill\">").data ++ escL x.data ++ ("</span>").data)) ++
      ("</div>").data⟩

/-- `render_list` (lines 94–97). -/
def render_list (items : List String) : String :=
  if items = [] then ""
  else
    ⟨("<ul class=\x27ul\x27>").data ++
      (items.flatMap (fun x => ("<li>").data ++ escL x.data ++ ("</li>").data)) ++
      ("</ul>").data⟩

/-- `render_chips` (lines 99–101). -/
def render_chips (items : List String) : String :=
  if items = [] then ""
  else
    ⟨("<div class=\"chips\">").data ++
      (items.flatMap
        (fun x => ("<span class=\"chip\">").data ++ escL x.data ++ ("</span>").data)) ++
      ("</div>").data⟩

/-- `render_related` (lines 103–106): the empty list yields the empty
string, otherwise one escaped chip-link per entry. -/
def render_related (links : List Link) : String :=
  if links = [] then ""
  else
    ⟨("<div class=\"related\">").data ++
      (links.flatMap
        (fun l => ("<a class=\"chip link glow\" href=\"").data ++ escL l.href.data ++
          ("\">").data ++ escL l.text.data ++ ("</a>").data)) ++
      ("</div>").data⟩

/-- `render_scenarios` (lines 108–119): rows where either component is
non-empty become cards. -/
def render_scenarios (rows : List (String × String)) : String :=
  let kept := rows.filter (fun p => ¬(p.1 = "" ∧ p.2 = ""))
  if kept = [] then ""
  else
    ⟨("<div class=\"grid-3\">").data ++
      (kept.flatMap (fun p =>
        ("<div class=\"card glow\">\n  <div class=\"card-title\">").data ++
        escL (orS p.1 "Сценарий").data ++
        ("</div>\n  <div class=\"card-text\">").data ++ (para p.2).data ++
        ("</div>\n</div>").data)) ++
      ("</div>").data⟩

/-- `render_faq` (lines 121–132): pairs where either component is non-empty
become `<details>` blocks. -/
def render_faq (qas : List (String × String)) : String :=
  let kept := qas.filter (fun p => ¬(p.1 = "" ∧ p.2 = ""))
  if kept = [] then ""
  else
    ⟨("<section class=\x27faq-wrap\x27>").data ++
      (kept.flatMap (fun p =>
        ("<details class=\"faq\">\n  <summary>").data ++
        escL (orS p.1 "Вопрос").data ++
        ("</summary>\n  <div class=\"faq-a\">").data ++ (para p.2).data ++
        ("</div>\n</details>").data)) ++
      ("</section>").data⟩

/-- `json_ld` (lines 134–144): the `WebPage` JSON-LD script tag, with
`json.dumps` of the literal dict written out key by key in insertion order
(default separators `", "` and `": "`); the clock `now_iso()` is passed in. -/
def json_ld (site_base url_path meta_title meta_desc now_iso : String) : String :=
  "<script type=\"application/ld+json\">\x7b\"@context\": \"https://schema.org\", \"@type\": \"WebPage\", \"url\": " ++
    jsonStr (site_base ++ url_path) ++ ", \"name\": " ++ jsonStr meta_title ++
    ", \"description\": " ++ jsonStr meta_desc ++
    ", \"inLanguage\": \"ru\", \"dateModified\": " ++ jsonStr now_iso ++
    "\x7d</script>"

/-- The title fallback chain of `build_title_index` (line 155):
`(r.get("title") or r.get("h1") or r.get("meta_title") or "").strip()`. -/
def titleChain (r : Row) : String :=
  pyStrip (orS (orS (r "title") (r "h1")) (r "meta_title"))

/-- Association-list model of the Python dict used by the title index:
insertion prepends, lookup takes the first (most recent) binding, which
matches dict `[k] = v` / `.get(k)` observationally. -/
def lookupA (idx : List (String × String)) (k : String) : Option String :=
  match idx.find? (fun p => p.1 = k) with
  | some p => some p.2
  | none => none

/-- The first, CSV pass of `build_title_index` (lines 149–157): a left fold
over the rows, each row with a non-empty normalised url and a non-empty
title inserting (here: prepending) its binding, so that on duplicate urls
the most recently processed row is the one `lookupA` finds. -/
def csvIndexAux (acc : List (String × String)) : List Row → List (String × String)
  | [] => acc
  | r :: rest =>
    let u := norm_url (r "url")
    if u = "" then csvIndexAux acc rest
    else
      let t := titleChain r
      if t = "" then csvIndexAux acc rest else csvIndexAux ((u, t) :: acc) rest

/-- The CSV pass of `build_title_index` started on the empty dict. -/
def csvIndex (rows : List Row) : List (String × String) :=
  csvIndexAux [] rows

/-- `re.sub(r"<.*?>", "", s)` as used on a scraped `<h1>` (line 171): a `<`
with a later `>` on the same line is removed together with everything up to
that first `>`; a `<` with no closing `>` before a newline stays (the
pattern is compiled without DOTALL, so `.` does not cross newlines). -/
def stripTagsF : Nat → List Char → List Char
  | _, [] => []
  | 0, l => l
  | fuel + 1, c :: rest =>
    if c = '<' then
      let line := rest.takeWhile (fun d => d ≠ '\n')
      if line.contains '>' then
        stripTagsF fuel (rest.drop ((rest.takeWhile (fun d => d ≠ '>')).length + 1))
      else c :: stripTagsF fuel rest
    else c :: stripTagsF fuel rest

/-- `re.sub(r"<.*?>", "", s)` with the fuel instantiated to the length of
the input (every step consumes at least one character). -/
def stripTags (l : List Char) : List Char :=
  stripTagsF l.length l

/-- Does the list start with the (IGNORECASE) closing tag `</h1>`? -/
def isCloseAt : List Char → Bool
  | '<' :: '/' :: h :: '1' :: '>' :: _ => h = 'h' || h = 'H'
  | _ => false

/-- Split a list at the first occurrence of the (IGNORECASE) `</h1>`:
the part before it and the part after it. -/
def splitAtClose : List Char → Option (List Char × List Char)
  | [] => none
  | c :: rest =>
    if isCloseAt (c :: rest) then some ([], (c :: rest).drop 5)
    else
      match splitAtClose rest with
      | some p => some (c :: p.1, p.2)
      | none => none

/-- One attempt of `re.search(r"<h1[^>]*>(.*?)</h1>", txt, re.S | re.I)` at
the head of the list: an (IGNORECASE) `<h1`, then everything up to the first
`>`, then the minimal (DOTALL) capture up to the first `</h1>`. -/
def h1At : List Char → Option (List Char)
  | '<' :: h :: '1' :: tail =>
    if h = 'h' || h = 'H' then
      if tail.contains '>' then
        match splitAtClose (tail.drop ((tail.takeWhile (fun d => d ≠ '>')).length + 1)) with
        | some p => some p.1
        | none => none
      else none
    else none
  | _ => none

/-- The leftmost match of `re.search(r"<h1[^>]*>(.*?)</h1>", txt, re.S | re.I)`:
the first position at which the whole pattern succeeds wins. -/
def searchH1 : List Char → Option (List Char)
  | [] => none
  | c :: rest =>
    match h1At (c :: rest) with
    | some cap => some cap
    | none => searchH1 rest

/-- The scraped first-heading text of lines 169–172: the `<h1>` capture with
inner tags removed and whitespace stripped. -/
def extract_h1 (txt : String) : Option String :=
  match searchH1 txt.data with
  | some cap => some ⟨pyStripL (stripTags cap)⟩
  | none => none

/-- The second pass of `build_title_index` (lines 159–173): previously
generated pages, given as `(directory name, file text)` pairs in glob order,
fill only urls that the index does not already contain, using the scraped,
tag-stripped, non-empty first `<h1>`. -/
def pagesAdd (idx : List (String × String)) : List (String × String) → List (String × String)
  | [] => idx
  | (name, txt) :: rest =>
    let url_path := "/chat/" ++ name ++ "/"
    if (lookupA idx url_path).isSome then pagesAdd idx rest
    else
      match extract_h1 txt with
      | some h => if h = "" then pagesAdd idx rest else pagesAdd ((url_path, h) :: idx) rest
      | none => pagesAdd idx rest

/-- `build_title_index` (lines 148–174), with the filesystem pass made
explicit: `rows` are the CSV rows and `pages` the already generated
`chat/*/index.html` files as `(directory name, text)` pairs. -/
def build_title_index (rows : List Row) (pages : List (String × String)) :
    List (String × String) :=
  pagesAdd (csvIndex rows) pages

/-- `enrich_related` (lines 176–184); the source loop appending one enriched
link per input link is written as a `map`. -/
def enrich_related (links : List Link) (title_index : List (String × String)) :
    List Link :=
  links.map (fun l =>
    let href := norm_url l.href
    let text := pyStrip l.text
    ⟨href,
      if text = "" then orS ((lookupA title_index href).getD "") (pretty_from_slug href)
      else text⟩)

/-- The inner `h2_block` of `render_page` (lines 278–280). -/
def h2_block (title text : String) : String :=
  if title = "" ∧ text = "" then ""
  else ⟨("<section><h2>").data ++ escL title.data ++ ("</h2>").data ++
    (para text).data ++ ("</section>").data⟩

/-- Python `"\n".join(xs)`. -/
def joinNL (xs : List String) : String :=
  joinNLS xs

/-- The six FAQ pairs `render_page` reads from a row (lines 214–221). -/
def faqs_of (row : Row) : List (String × String) :=
  [(pyStrip (row "faq1_q"), pyStrip (row "faq1_a")),
   (pyStrip (row "faq2_q"), pyStrip (row "faq2_a")),
   (pyStrip (row "faq3_q"), pyStrip (row "faq3_a")),
   (pyStrip (row "faq4_q"), pyStrip (row "faq4_a")),
   (pyStrip (row "faq5_q"), pyStrip (row "faq5_a")),
   (pyStrip (row "faq6_q"), pyStrip (row "faq6_a"))]

/-- The three scenario pairs `render_page` reads from a row (lines 209–213). -/
def scenarios_of (row : Row) : List (String × String) :=
  [(pyStrip (row "scenario1_title"), pyStrip (row "scenario1_text")),
   (pyStrip (row "scenario2_title"), pyStrip (row "scenario2_text")),
   (pyStrip (row "scenario3_title"), pyStrip (row "scenario3_text"))]

/-- The `body` list of `render_page` (lines 260–304), one entry per
`body.append` call, in order; conditional appends contribute their entry
exactly when the source condition holds. -/
def body_blocks (row : Row) (title_index : List (String × String)) : List String :=
  let bullets := split_list (row "bullets")
  let examples := split_list (row "examples")
  let tips_do := split_list (row "tips_do")
  let tips_avoid := split_list (row "tips_avoid")
  let related := enrich_related (parse_internal_links (row "internal_links")) title_index
  (if bullets ≠ [] then
    ["\n<section class=\"panel glow\">\n  <div class=\"panel-title\">Что внутри</div>\n  " ++
      render_list bullets ++ "\n</section>\n"]
  else []) ++
  (if examples ≠ [] then
    ["\n<section>\n  <h2>Подсказки и примеры</h2>\n  " ++
      render_chips examples ++ "\n</section>\n"]
  else []) ++
  [h2_block (pyStrip (row "h2a_title")) (pyStrip (row "h2a_text")),
   h2_block (pyStrip (row "h2b_title")) (pyStrip (row "h2b_text")),
   h2_block (pyStrip (row "h2c_title")) (pyStrip (row "h2c_text")),
   h2_block (pyStrip (row "h2d_title")) (pyStrip (row "h2d_text"))] ++
  (if (scenarios_of row).any (fun p => p.1 ≠ "") then
    ["<section><h2>Сценарии</h2>" ++ render_scenarios (scenarios_of row) ++ "</section>"]
  else []) ++
  (if tips_do ≠ [] ∨ tips_avoid ≠ [] then
    ["<section class=\x27two-col\x27>" ++
      (if tips_do ≠ [] then
        "<div class=\x27panel\x27><h3>Стоит делать</h3>" ++ render_list tips_do ++ "</div>"
      else "") ++
      (if tips_avoid ≠ [] then
        "<div class=\x27panel\x27><h3>Чего избегать</h3>" ++ render_list tips_avoid ++ "</div>"
      else "") ++ "</section>"]
  else []) ++
  [render_faq (faqs_of row)] ++
  (if related ≠ [] then
    ["<section><h2>Ещё по теме</h2>" ++ render_related related ++ "</section>"]
  else [])

/-- The `head` f-string of `render_page` (lines 225–258). -/
def page_head (row : Row) (now_iso : String) : String :=
  let url := norm_url (row "url")
  let title := pyStrip (row "title")
  let meta_title := orS (pyStrip (orS (row "meta_title") title)) title
  let meta_desc := pyStrip (row "meta_description")
  let h1 := orS (pyStrip (orS (row "h1") title)) title
  let intro := pyStrip (row "intro")
  let cta_text := pyStrip (orS (row "cta") "Открыть чат в Telegram")
  let bullets := split_list (row "bullets")
  let tags := split_list (row "tags")
  let canonical := orS (pyStrip (row "canonical")) (SITE_BASE ++ url)
  "<!doctype html>\n<html lang=\"ru\">\n<head>\n<meta charset=\"utf-8\" />\n<meta name=\"viewport\" content=\"width=device-width,initial-scale=1\" />\n<title>" ++
  html_escape meta_title ++
  "</title>\n<meta name=\"description\" content=\"" ++ html_escape meta_desc ++
  "\" />\n<link rel=\"canonical\" href=\"" ++ html_escape canonical ++
  "\" />\n<meta property=\"og:type\" content=\"article\" />\n<meta property=\"og:title\" content=\"" ++
  html_escape meta_title ++
  "\" />\n<meta property=\"og:description\" content=\"" ++ html_escape meta_desc ++
  "\" />\n<meta property=\"og:url\" content=\"" ++ html_escape canonical ++
  "\" />\n<link rel=\"stylesheet\" href=\"/" ++ ASSETS_CSS ++
  "\">\n<script defer src=\"/" ++ ASSETS_JS ++ "\"></script>\n" ++
  json_ld SITE_BASE url meta_title meta_desc now_iso ++
  "\n</head>\n<body class=\"theme-dark\">\n<header class=\"site-top\">\n  <div class=\"container\">\n    <a class=\"brand\" href=\"/\">Luna Chat</a>\n    <a class=\"btn primary sticky-cta\" href=\"" ++
  html_escape TELEGRAM_URL ++
  "\">Открыть чат в Telegram</a>\n  </div>\n</header>\n\n<main class=\"container\">\n  <section class=\"hero\">\n    <h1>" ++
  html_escape h1 ++
  "</h1>\n    <p class=\"lead\">" ++ html_escape intro ++
  "</p>\n    " ++
  render_badges (if bullets.take 4 ≠ [] then bullets.take 4 else tags.take 4) ++
  "\n    <div class=\"hero-cta\">\n      <a class=\"btn primary\" href=\"" ++
  html_escape TELEGRAM_URL ++ "\">" ++ html_escape cta_text ++
  "</a>\n    </div>\n  </section>\n"

/-- The `foot` string of `render_page` (lines 306–315). -/
def page_foot : String :=
  "\n</main>\n\n<footer class=\"site-foot\">\n  <div class=\"container\">\n    <small>© 2025 Luna Chat • Уважайте границы, 18+</small>\n  </div>\n</footer>\n</body></html>\n"

/-- `render_page` (lines 188–316): head, the non-empty body blocks joined
with newlines, then foot.  The clock used by the JSON-LD block is the
`now_iso` parameter. -/
def render_page (row : Row) (title_index : List (String × String)) (now_iso : String) :
    String :=
  page_head row now_iso ++ joinNL ((body_blocks row title_index).filter (· ≠ "")) ++
    page_foot

/-- `CSV_CANDIDATES` (line 14), as paths relative to the repository root. -/
def CSV_CANDIDATES : List String := ["pages.csv", "data/pages.csv"]

/-- The module-level CSV discovery of lines 15–17: the first existing
candidate path, or `SystemExit` with the error message when none exists.
The filesystem is the predicate `fs` saying which paths exist. -/
def startup (fs : String → Bool) : Except String String :=
  match CSV_CANDIDATES.find? fs with
  | some p => Except.ok p
  | none => Except.error "[ERR] CSV not found: pages.csv or data/pages.csv"

end GP

/-! ## scripts/generate_chat_pages.py -/

namespace GCP

/-- A CSV row (`rec.get(key, "")`). -/
def Row : Type := String → String

/-- `BASE_URL` with its default value (line 45). -/
def BASE_URL : String := "https://gorod-legends.ru"

/-- `esc` (lines 62–63): strip, then `html.escape` with `quote=True`. -/
def esc (x : String) : String :=
  html_escape (pyStrip x)

/-- `norm_url` of generate_chat_pages.py (lines 65–71): strip, empty becomes
`/`, ensure leading and trailing slash, collapse runs of slashes. -/
def norm_url (u : String) : String :=
  let t := pyStripL u.data
  if t = [] then "/"
  else
    let t1 := if t.head? = some '/' then t else '/' :: t
    let t2 := if t1.getLast? = some '/' then t1 else t1 ++ ['/']
    ⟨collapseSlash t2⟩

/-- The numbered FAQ columns `faq{i}_q` / `faq{i}_a` of a row. -/
def faqPair (rec : Row) (i : Nat) : String × String :=
  (rec ("faq" ++ toString i ++ "_q"), rec ("faq" ++ toString i ++ "_a"))

/-- `faq_items` (lines 346–352): the numbered pairs 1..10 whose trimmed
question and trimmed answer are both non-empty. -/
def faq_items (rec : Row) : List (String × String) :=
  (List.range' 1 10).filterMap (fun i =>
    let q := pyStrip (faqPair rec i).1
    let a := pyStrip (faqPair rec i).2
    if q ≠ "" ∧ a ≠ "" then some (q, a) else none)

/-- `faq_html` (lines 354–360). -/
def faq_html (items : List (String × String)) : String :=
  if items = [] then
    "<p class=\"text-zinc-400\">Вопросов пока нет — задайте в нашем Telegram.</p>"
  else
    joinNLS (items.map (fun it =>
      "<details class=\"glass rounded-xl p-4\"><summary class=\"cursor-pointer font-medium text-white\">" ++
      esc it.1 ++ "</summary><p class=\"mt-2 text-zinc-300\">" ++ esc it.2 ++
      "</p></details>"))

/-- `faq_jsonld` (lines 362–367), with `json.dumps`'s compact separators
`","` and `":"` written out in insertion order. -/
def faq_jsonld (items : List (String × String)) : String :=
  if items = [] then "\x7b\x7d"
  else
    "\x7b\"@context\":\"https://schema.org\",\"@type\":\"FAQPage\",\"mainEntity\":[" ++
    joinCommaS (items.map (fun it =>
      "\x7b\"@type\":\"Question\",\"name\":" ++ jsonStr it.1 ++
      ",\"acceptedAnswer\":\x7b\"@type\":\"Answer\",\"text\":" ++ jsonStr it.2 ++
      "\x7d\x7d")) ++ "]\x7d"

/-- The row fields consulted by `build_related`. -/
structure CRow where
  url : String
  title : String
  keyword : String
deriving DecidableEq, Repr

/-- The dict comprehension `{norm_url(r["url"]): r for r in all_rows}` of
line 372: later rows overwrite earlier ones, modelled by prepending in a
left fold with first-match lookup. -/
def by_url_of : List CRow → List (String × CRow) → List (String × CRow)
  | [], acc => acc
  | r :: rest, acc => by_url_of rest ((norm_url r.url, r) :: acc)

/-- Dict lookup on the association list. -/
def lookupR (d : List (String × CRow)) (k : String) : Option CRow :=
  match d.find? (fun p => p.1 = k) with
  | some p => some p.2
  | none => none

/-- The manual-links loop of lines 374–377. -/
def manualLoop (by_url : List (String × CRow)) (cur : String) :
    List String → List CRow → List CRow
  | [], items => items
  | u :: rest, items =>
    let u := norm_url u
    match lookupR by_url u with
    | some r =>
      if u ≠ cur then manualLoop by_url cur rest (items ++ [r])
      else manualLoop by_url cur rest items
    | none => manualLoop by_url cur rest items

/-- The same-prefix fill loop of lines 378–389 (`break` at `limit`). -/
def fillLoop (limit : Nat) : List CRow → List String → List CRow → List CRow
  | items, _, [] => items
  | items, seen, r :: rest =>
    let u := norm_url r.url
    let p := if u ∈ seen then (items, seen) else (items ++ [r], u :: seen)
    if p.1.length ≥ limit then p.1 else fillLoop limit p.1 p.2 rest

/-- The fallback urls of line 391. -/
def FALLBACK : List String :=
  ["/chat/chat-s-devushkoi-online/", "/chat/anonimnyi-chat-s-devushkoi/",
   "/chat/chat-bez-registracii/"]

/-- The fallback loop of lines 392–397 (`break` at `limit`). -/
def fbLoop (by_url : List (String × CRow)) (cur : String) (limit : Nat) :
    List CRow → List String → List CRow
  | items, [] => items
  | items, u :: rest =>
    let items' :=
      match lookupR by_url (norm_url u) with
      | some r => if norm_url u ≠ cur ∧ r ∉ items then items ++ [r] else items
      | none => items
    if items'.length ≥ limit then items' else fbLoop by_url cur limit items' rest

/-- `build_related` (lines 369–415): the related-cards HTML fragment and the
`ItemList` JSON-LD, from manual links, then same-first-segment neighbours,
then the three hard-coded fallbacks — all drawn from the current batch. -/
def build_related (all_rows : List CRow) (current_url : String) (manual : List String)
    (limit : Nat) : String × String :=
  let cur := norm_url current_url
  let by_url := by_url_of all_rows []
  let items := manualLoop by_url cur manual []
  let items :=
    if items.length < limit then
      let parts := ((splitCh '/' (stripOn (fun c => c = '/') cur.data)).map
        (fun l => (⟨l⟩ : String))).filter (· ≠ "")
      let pre := "/" ++ parts.headD "" ++ "/"
      let mux := all_rows.filter (fun r =>
        pre.data.isPrefixOf (norm_url r.url).data ∧ norm_url r.url ≠ cur)
      fillLoop limit items (items.map (fun i => norm_url i.url)) mux
    else items
  let items := if items.length < 3 then fbLoop by_url cur limit items FALLBACK else items
  let shown := items.take limit
  let cards := joinNLS (shown.map (fun r =>
    "<a class=\"glass rounded-xl p-4 hover:bg-white/10\" href=\"" ++
    esc (norm_url r.url) ++ "\">" ++ esc (orS (orS r.title r.keyword) "Подробнее") ++
    "</a>"))
  let itemlist :=
    "\x7b\"@context\":\"https://schema.org\",\"@type\":\"ItemList\",\"itemListElement\":[" ++
    joinCommaS ((shown.enum).map (fun p =>
      "\x7b\"@type\":\"ListItem\",\"position\":" ++ toString (p.1 + 1) ++
      ",\"url\":" ++ jsonStr (BASE_URL ++ norm_url p.2.url) ++
      ",\"name\":" ++ jsonStr (orS (orS p.2.title p.2.keyword) "Подробнее") ++ "\x7d")) ++
    "]\x7d"
  (cards, itemlist)

end GCP

/-! ## scripts/autogen_seo.py -/

namespace AGS

/-- A CSV row (`r.get(key)`, absent keys read as `""`). -/
def Row : Type := String → String

/-- `SITE_BASE` (line 19). -/
def SITE_BASE : String := "https://gorod-legends.ru"

/-- `OUT_DIR` (line 22). -/
def OUT_DIR : String := "requests"

/-- `OG_DIR` (line 23). -/
def OG_DIR : String := "assets/og"

/-- `TWITTER_SITE` (line 25). -/
def TWITTER_SITE : String := "@yourbrand"

/-- `ORG_NAME` (line 26). -/
def ORG_NAME : String := "Luna Chat"

/-- `BLOCKLIST` (lines 28–30). -/
def BLOCKLIST : List String :=
  ["несовершеннолет", "teen", "детск", "насилие", "rape", "инцест", "порн", "наркот"]

/-- The latinisations of the lowercase Cyrillic letters `а`..`я` (code
points 0x430..0x44F), indexed by offset — the values of the `MAP` dict of
lines 33–35. -/
def cyrLat : Nat → String
  | 0 => "a" | 1 => "b" | 2 => "v" | 3 => "g" | 4 => "d" | 5 => "e"
  | 6 => "zh" | 7 => "z" | 8 => "i" | 9 => "y" | 10 => "k" | 11 => "l"
  | 12 => "m" | 13 => "n" | 14 => "o" | 15 => "p" | 16 => "r" | 17 => "s"
  | 18 => "t" | 19 => "u" | 20 => "f" | 21 => "h" | 22 => "c" | 23 => "ch"
  | 24 => "sh" | 25 => "sch" | 26 => "" | 27 => "y" | 28 => "" | 29 => "e"
  | 30 => "yu" | 31 => "ya"
  | _ => ""

/-- `MAP.get(ch)` (lines 33–35): the transliteration dict over the lowercase
Cyrillic letters including `ё`. -/
def MAP_get (c : Char) : Option String :=
  if 0x430 ≤ c.toNat ∧ c.toNat ≤ 0x44F then some (cyrLat (c.toNat - 0x430))
  else if c = 'ё' then some "e" else none

/-- Python `ch.isalnum()`, modelled on the ASCII and Russian-Cyrillic
character ranges (exact on that domain, which is the one the theorems
below quantify over). -/
def pyIsAlnum (c : Char) : Bool :=
  ('0' ≤ c ∧ c ≤ '9') || ('a' ≤ c ∧ c ≤ 'z') || ('A' ≤ c ∧ c ≤ 'Z') ||
  (0x410 ≤ c.toNat ∧ c.toNat ≤ 0x44F) || c = 'ё' || c = 'Ё'

/-- The separator characters of line 42 (`ch in " _./+|–—"`). -/
def slugSep (c : Char) : Bool :=
  c = ' ' || c = '_' || c = '.' || c = '/' || c = '+' || c = '|' || c = '–' || c = '—'

/-- The per-character step of `slugify`'s loop (lines 39–43). -/
def slugChar (c : Char) : List Char :=
  match MAP_get c with
  | some m => m.data
  | none =>
    if pyIsAlnum c then [c]
    else if slugSep c then ['-']
    else ['-']

/-- `slugify` (lines 36–45): strip and lowercase, transliterate/keep/dash
per character, collapse dash runs, strip dashes, default `"page"`. -/
def slugify (text : String) : String :=
  let t := pyLower (pyStrip text)
  let r := stripOn (fun c => c = '-') (collapseOn '-' (t.data.flatMap slugChar))
  if r = [] then "page" else ⟨r⟩

/-- Membership in the character class `[a-z0-9-]` of the slug-shape
regular expression. -/
def isSlugChar (c : Char) : Bool :=
  ('a' ≤ c ∧ c ≤ 'z') || ('0' ≤ c ∧ c ≤ '9') || c = '-'

/-- The input domain on which the Unicode models (`pyLowerChar`,
`pyIsAlnum`) are exact: ASCII together with the Russian-Cyrillic letters. -/
def asciiOrRu (c : Char) : Bool :=
  c.toNat < 128 || (0x410 ≤ c.toNat ∧ c.toNat ≤ 0x44F) || c = 'ё' || c = 'Ё'

/-- `blocked` (lines 47–49): case-insensitive substring test against the
blocklist. -/
def blocked (s : String) : Bool :=
  BLOCKLIST.any (fun b => strContains (pyLower s) b)

/-- The explicit FAQ pairs of `html_page` (lines 259–262): each of the three
numbered pairs is kept exactly when both raw fields are truthy (non-empty,
untrimmed).  The randomised fallback of lines 263–265, used only when this
list is empty, synthesises stock pairs and is not modelled. -/
def user_faqs (row : Row) : List (String × String) :=
  (if row "faq1_q" ≠ "" ∧ row "faq1_a" ≠ "" then [(row "faq1_q", row "faq1_a")] else []) ++
  (if row "faq2_q" ≠ "" ∧ row "faq2_a" ≠ "" then [(row "faq2_q", row "faq2_a")] else []) ++
  (if row "faq3_q" ≠ "" ∧ row "faq3_a" ≠ "" then [(row "faq3_q", row "faq3_a")] else [])

/-- The head portion of `html_page`'s output (the f-string of lines 308–339,
from `<!doctype html>` through the favicon link): the full page returned by
`html_page` is this string followed by the styles, JSON-LD and body.  Note
that `title` and the derived meta description are interpolated with **no**
escaping, exactly as in the source. -/
def html_page_head_part (row : Row) (now_iso : String) : String :=
  let title := pyStrip (row "title")
  let kw := pyStrip (row "keyword")
  let slug := row "slug"
  let desc := pyStrip (row "description")
  let url := SITE_BASE ++ "/" ++ OUT_DIR ++ "/" ++ slug ++ "/"
  let og_rel_path := "/" ++ OG_DIR ++ "/" ++ slug ++ ".png"
  let page_meta_desc :=
    (orS desc (title ++ ": " ++ kw ++
      ". Лёгкий старт, уважительный тон и уютный флирт. Нажмите — чат откроется в Telegram.")).take 160
  "<!doctype html>\n<html lang=\"ru\">\n<head>\n<meta charset=\"utf-8\">\n<meta name=\"viewport\" content=\"width=device-width,initial-scale=1\">\n<title>" ++
  title ++ " | Luna Chat</title>\n<meta name=\"description\" content=\"" ++
  page_meta_desc ++ "\">\n<link rel=\"canonical\" href=\"" ++ url ++
  "\">\n<link rel=\"alternate\" hreflang=\"ru\" href=\"" ++ url ++
  "\">\n<link rel=\"alternate\" hreflang=\"x-default\" href=\"" ++ url ++
  "\">\n<meta name=\"robots\" content=\"index,follow\">\n<meta name=\"theme-color\" content=\"#100B10\">\n\n<meta property=\"og:type\" content=\"article\">\n<meta property=\"og:title\" content=\"" ++
  title ++ "\">\n<meta property=\"og:description\" content=\"" ++ page_meta_desc ++
  "\">\n<meta property=\"og:url\" content=\"" ++ url ++
  "\">\n<meta property=\"og:image\" content=\"" ++ og_rel_path ++
  "\">\n<meta property=\"og:image:width\" content=\"1200\">\n<meta property=\"og:image:height\" content=\"630\">\n<meta property=\"og:image:alt\" content=\"Luna Chat — уютное общение и флирт\">\n<meta property=\"og:site_name\" content=\"" ++
  ORG_NAME ++ "\">\n<meta property=\"og:locale\" content=\"ru_RU\">\n<meta property=\"article:published_time\" content=\"" ++
  now_iso ++ "\">\n<meta property=\"article:modified_time\" content=\"" ++ now_iso ++
  "\">\n<meta property=\"og:updated_time\" content=\"" ++ now_iso ++
  "\">\n<meta name=\"twitter:card\" content=\"summary_large_image\">\n<meta name=\"twitter:site\" content=\"" ++
  TWITTER_SITE ++ "\">\n<meta name=\"twitter:title\" content=\"" ++ title ++
  "\">\n<meta name=\"twitter:description\" content=\"" ++ page_meta_desc ++
  "\">\n<meta name=\"twitter:image\" content=\"" ++ og_rel_path ++
  "\">\n<link rel=\"icon\" href=\"/favicon.ico\">\n"

/-- A loaded row after `main`'s filtering (lines 451–465). -/
structure LRow where
  title : String
  keyword : String
  slug : String
deriving DecidableEq, Repr

/-- The row-loading loop of `main` (lines 451–465): strip title and
keyword, drop rows where either is empty, drop rows where either is
blocked, default the slug from the title. -/
def load_rows (csv : List Row) : List LRow :=
  csv.filterMap (fun r =>
    let title := pyStrip (r "title")
    let kw := pyStrip (r "keyword")
    if title = "" ∨ kw = "" then none
    else if blocked title ∨ blocked kw then none
    else some ⟨title, kw, orS (r "slug") (slugify title)⟩)

/-- `generated_urls` as accumulated by the page loop (lines 484–498): one
absolute url per loaded row. -/
def generated_urls (rows : List LRow) : List String :=
  rows.map (fun r => SITE_BASE ++ "/" ++ OUT_DIR ++ "/" ++ r.slug ++ "/")

/-- `base_paths` (line 502) prefixed with the site base (lines 503–504). -/
def base_urls : List String :=
  ["", "characters/", "requests/", "guides/", "18plus/", "pages/about.html",
   "pages/contact.html", "pages/terms.html", "pages/privacy.html"].map
    (fun p => SITE_BASE ++ "/" ++ p)

/-- Insert into a ≤-sorted list of strings. -/
def insSorted (x : String) : List String → List String
  | [] => [x]
  | y :: rest => if pyStrLe x y then x :: y :: rest else y :: insSorted x rest

/-- Python `sorted` on strings (code-point order); an insertion sort — the
same multiset in the same order as CPython's sort on these keys. -/
def sortStr : List String → List String
  | [] => []
  | x :: rest => insSorted x (sortStr rest)

/-- The sitemap url set of lines 500–513: the base paths plus every
generated url, deduplicated (a Python `set`) and sorted. -/
def sitemap_urls (csv : List Row) : List String :=
  sortStr ((base_urls ++ generated_urls (load_rows csv)).dedup)

/-- The RSS item urls of line 523: the last 50 of the sorted generated
urls. -/
def rss_urls (csv : List Row) : List String :=
  let s := sortStr (generated_urls (load_rows csv))
  s.drop (s.length - 50)

end AGS

/-! ## scripts/generate_feeds.py -/

namespace GF

/-- A CSV row (`row.get(key)`, absent keys read as `""`). -/
def Row : Type := String → String

/-- `SITE_ORIGIN` with its default value (line 31). -/
def SITE_ORIGIN : String := "https://example.com"

/-- `BRAND_NAME` with its default value (line 32). -/
def BRAND_NAME : String := "Luna Chat"

/-- One feed entry (lines 70–75). -/
structure FeedItem where
  loc : String
  title : String
  desc : String
  updated : String
deriving DecidableEq, Repr

/-- `_norm_url` (lines 43–50): absolute url with leading and trailing
slash. -/
def _norm_url (path : String) : String :=
  if path = "" then SITE_ORIGIN ++ "/"
  else
    let p := if path.data.head? = some '/' then path.data else '/' :: path.data
    let p := if p.getLast? = some '/' then p else p ++ ['/']
    SITE_ORIGIN ++ ⟨p⟩

/-- `read_from_csv` (lines 52–76) given the first existing candidate CSV's
rows (`none` when no candidate path exists); the clock is `now`. -/
def read_from_csv (csvOpt : Option (List Row)) (now : String) : List FeedItem :=
  match csvOpt with
  | none => []
  | some rows =>
    rows.filterMap (fun row =>
      let url := pyStrip (row "url")
      let slug := pyStripSlash (pyStrip (row "slug"))
      let url := if url = "" then (if slug ≠ "" then "/chat/" ++ slug ++ "/" else "") else url
      if url = "" then none
      else some
        ⟨_norm_url url,
         orS (pyStrip (orS (orS (row "title") (row "og_title")) (row "h1")))
           (pyStripSlash url),
         pyStrip (orS (row "description") (row "og_description")),
         now⟩)

/-- Deduplicate feed items by `loc`, keeping the first occurrence
(lines 92–97). -/
def dedupLoc (seen : List String) : List FeedItem → List FeedItem
  | [] => []
  | it :: rest =>
    if it.loc ∈ seen then dedupLoc seen rest
    else it :: dedupLoc (it.loc :: seen) rest

/-- Insertion into a list sorted by `loc`. -/
def insLoc (x : FeedItem) : List FeedItem → List FeedItem
  | [] => [x]
  | y :: rest => if pyStrLe x.loc y.loc then x :: y :: rest else y :: insLoc x rest

/-- `sorted(out, key=lambda x: x["loc"])` (line 98). -/
def sortLoc : List FeedItem → List FeedItem
  | [] => []
  | x :: rest => insLoc x (sortLoc rest)

/-- `scan_docs` (lines 78–98): the fallback scan over `docs/**/index.html`,
whose directories are given as their `/`-separated paths relative to
`docs` (`.` for the root), deduplicated by url and sorted. -/
def scan_docs (docs : List String) (now : String) : List FeedItem :=
  sortLoc (dedupLoc []
    (docs.map (fun rel =>
      let url_path := "/" ++ (if rel ≠ "." then rel ++ "/" else "")
      ⟨_norm_url url_path, orS (pyStripSlash rel) BRAND_NAME, "", now⟩)))

/-- `main` (lines 159–172): items from the CSV, else from the docs scan;
with no data print the notice and return 0, otherwise write both feeds and
return 0.  The result is the exit code paired with the console lines. -/
def feeds_main (csvOpt : Option (List Row)) (docs : List String) (now : String) :
    Nat × List String :=
  let items := read_from_csv csvOpt now
  let items := if items = [] then scan_docs docs now else items
  if items = [] then (0, ["ℹ️  Нет данных для фидов — пропускаю генерацию."])
  else (0, ["SITEMAP ✓ docs/sitemap.xml", "RSS     ✓ docs/rss.xml", "✅ Feeds готово."])

end GF

/-! ## scripts/generate_rss.py -/

namespace GRS

/-- A CSV row (`r.get(key)`, absent keys read as `""`). -/
def Row : Type := String → String

/-- `SITE_BASE` with its default value (line 7). -/
def SITE_BASE : String := "https://gorod-legends.ru"

/-- `norm_url` of scripts/generate_rss.py (lines 15–19). -/
def norm_url (u : String) : String :=
  let t := pyStripL u.data
  let t1 := if t.head? = some '/' then t else '/' :: t
  ⟨if t1.getLast? = some '/' then t1 else t1 ++ ['/']⟩

/-- One emitted `<item>`: its title, link, description, and the synthesised
publication instant `now - i minutes`, kept as seconds on the timeline (the
RFC 2822 rendering by `email.utils.format_datetime` is injective and
order-preserving on these second-resolution instants). -/
structure RssItem where
  title : String
  link : String
  desc : String
  pub : Int
deriving DecidableEq, Repr

/-- The item loop of `main` (lines 44–59): enumerate the reversed CSV rows,
skip rows with an empty url (the enumeration index still advances), and
stamp item `i` with `now - 60 * i` seconds. -/
def rss_items (rows : List Row) (now : Int) : List RssItem :=
  (rows.reverse.enum).filterMap (fun p =>
    let u := pyStrip (p.2 "url")
    if u = "" then none
    else some
      ⟨pyStrip (orS (p.2 "title") (pyStripSlash u)),
       SITE_BASE ++ norm_url u,
       pyStrip (orS (p.2 "description") (p.2 "intro")),
       now - 60 * (p.1 : Int)⟩)

end GRS

/-! ## General lemmas -/

theorem collapseOn_cons_cons (d a b : Char) (rest : List Char) :
    collapseOn d (a :: b :: rest) =
      if a = d ∧ b = d then collapseOn d (b :: rest)
      else a :: collapseOn d (b :: rest) := by
  simp only [collapseOn]

theorem collapseOn_head (d b : Char) (rest : List Char) :
    (collapseOn d (b :: rest)).head? = some b := by
  induction rest generalizing b with
  | nil => rfl
  | cons c r ih =>
    rw [collapseOn_cons_cons]
    by_cases h : b = d ∧ c = d
    · rw [if_pos h, ih c, h.1, h.2]
    · rw [if_neg h]; rfl

theorem collapseOn_getLast (d : Char) (l : List Char) :
    (collapseOn d l).getLast? = l.getLast? := by
  induction l with
  | nil => rfl
  | cons b rest ih =>
    cases rest with
    | nil => rfl
    | cons c r =>
      rw [collapseOn_cons_cons]
      by_cases h : b = d ∧ c = d
      · rw [if_pos h, ih, List.getLast?_cons_cons]
      · rw [if_neg h]
        have hne : collapseOn d (c :: r) ≠ [] := by
          have := collapseOn_head d c r
          intro he; rw [he] at this; simp at this
        rw [List.getLast?_cons_cons, ← ih]
        cases hc : collapseOn d (c :: r) with
        | nil => exact absurd hc hne
        | cons x xs => simp [hc]

theorem collapseOn_noAdj (d : Char) (l : List Char) :
    List.Chain' (fun a b => ¬(a = d ∧ b = d)) (collapseOn d l) := by
  induction l with
  | nil => exact List.chain'_nil
  | cons b rest ih =>
    cases rest with
    | nil => exact List.chain'_singleton b
    | cons c r =>
      rw [collapseOn_cons_cons]
      by_cases h : b = d ∧ c = d
      · rw [if_pos h]; exact ih
      · rw [if_neg h]
        have hh := collapseOn_head d c r
        cases hc : collapseOn d (c :: r) with
        | nil => simp
        | cons x xs =>
          rw [hc] at hh ih
          simp only [List.head?_cons, Option.some.injEq] at hh
          subst hh
          exact List.Chain'.cons (fun hx => h ⟨hx.1, hx.2⟩) ih

theorem collapseOn_of_noAdj (d : Char) (l : List Char)
    (h : List.Chain' (fun a b => ¬(a = d ∧ b = d)) l) : collapseOn d l = l := by
  induction l with
  | nil => rfl
  | cons b rest ih =>
    cases rest with
    | nil => rfl
    | cons c r =>
      rw [collapseOn_cons_cons, if_neg (List.chain'_cons.mp h).1,
        ih (List.chain'_cons.mp h).2]

theorem collapseOn_idem (d : Char) (l : List Char) :
    collapseOn d (collapseOn d l) = collapseOn d l :=
  collapseOn_of_noAdj d _ (collapseOn_noAdj d l)

theorem stripOn_eq_self (p : Char → Bool) (l : List Char)
    (h1 : ∀ c, l.head? = some c → p c = false)
    (h2 : ∀ c, l.getLast? = some c → p c = false) : stripOn p l = l := by
  unfold stripOn
  have d1 : l.dropWhile p = l := by
    cases l with
    | nil => rfl
    | cons a t =>
      rw [List.dropWhile_cons]
      simp [h1 a rfl]
  rw [d1]
  have d2 : l.reverse.dropWhile p = l.reverse := by
    cases hr : l.reverse with
    | nil => rfl
    | cons a t =>
      rw [List.dropWhile_cons]
      have ha : l.getLast? = some a := by
        rw [← List.head?_reverse, hr]; rfl
      simp [h2 a ha]
  rw [d2, List.reverse_reverse]

theorem pySpace_slash : pySpace '/' = false := by decide

theorem slashFrame_spec (t : List Char) (h : t ≠ []) :
    ((if (if t.head? = some '/' then t else '/' :: t).getLast? = some '/'
        then (if t.head? = some '/' then t else '/' :: t)
        else (if t.head? = some '/' then t else '/' :: t) ++ ['/']).head? = some '/') ∧
      ((if (if t.head? = some '/' then t else '/' :: t).getLast? = some '/'
        then (if t.head? = some '/' then t else '/' :: t)
        else (if t.head? = some '/' then t else '/' :: t) ++ ['/']).getLast? = some '/') := by
  have h1 : (if t.head? = some '/' then t else '/' :: t).head? = some '/' := by
    by_cases hh : t.head? = some '/'
    · rw [if_pos hh]; exact hh
    · rw [if_neg hh]; rfl
  set t1 := if t.head? = some '/' then t else '/' :: t with ht1
  constructor
  · by_cases hl : t1.getLast? = some '/'
    · rw [if_pos hl]; exact h1
    · rw [if_neg hl, List.head?_append, h1]; rfl
  · by_cases hl : t1.getLast? = some '/'
    · rw [if_pos hl]; exact hl
    · rw [if_neg hl]; exact List.getLast?_concat t1

theorem gp_norm_url_shape (u : String) :
    GP.norm_url u = "" ∨
      ((GP.norm_url u).data.head? = some '/' ∧
        (GP.norm_url u).data.getLast? = some '/') := by
  unfold GP.norm_url
  by_cases h : pyStripL u.data = []
  · left; simp [h]
  · right
    rw [if_neg h]
    exact slashFrame_spec (pyStripL u.data) h

theorem gp_norm_url_idem (u : String) :
    GP.norm_url (GP.norm_url u) = GP.norm_url u := by
  rcases gp_norm_url_shape u with h | ⟨hh, hl⟩
  · rw [h]; rfl
  · set r := GP.norm_url u with hr
    have hstrip : pyStripL r.data = r.data := by
      apply stripOn_eq_self
      · intro c hc; rw [hh] at hc
        cases hc; decide
      · intro c hc; rw [hl] at hc
        cases hc; decide
    have hne : r.data ≠ [] := by
      intro he; rw [he] at hh; simp at hh
    show GP.norm_url r = r
    unfold GP.norm_url
    simp only [hstrip, if_neg hne, if_pos hh, if_pos hl]

theorem gcp_norm_url_shape (u : String) :
    (GCP.norm_url u).data.head? = some '/' ∧
      (GCP.norm_url u).data.getLast? = some '/' ∧
      (GCP.norm_url u).data = collapseSlash (GCP.norm_url u).data := by
  unfold GCP.norm_url
  by_cases h : pyStripL u.data = []
  · rw [if_pos h]
    exact ⟨rfl, rfl, rfl⟩
  · rw [if_neg h]
    obtain ⟨h2head, h2last⟩ := slashFrame_spec (pyStripL u.data) h
    set t := pyStripL u.data with ht
    set t1 := if t.head? = some '/' then t else '/' :: t with ht1
    set t2 := if t1.getLast? = some '/' then t1 else t1 ++ ['/'] with ht2
    have hne2 : t2 ≠ [] := by
      intro he; rw [he] at h2head; simp at h2head
    refine ⟨?_, ?_, ?_⟩
    · show (collapseSlash t2).head? = some '/'
      obtain ⟨a, r, hr⟩ := List.exists_cons_of_ne_nil hne2
      rw [hr] at h2head ⊢
      simp only [List.head?_cons, Option.some.injEq] at h2head
      rw [show collapseSlash (a :: r) = collapseOn '/' (a :: r) from rfl,
        collapseOn_head, h2head]
    · show (collapseSlash t2).getLast? = some '/'
      rw [show collapseSlash t2 = collapseOn '/' t2 from rfl, collapseOn_getLast]
      exact h2last
    · show collapseSlash t2 = collapseSlash (collapseSlash t2)
      exact (collapseOn_idem '/' t2).symm

theorem gcp_norm_url_idem (u : String) :
    GCP.norm_url (GCP.norm_url u) = GCP.norm_url u := by
  obtain ⟨hh, hl, hc⟩ := gcp_norm_url_shape u
  set r := GCP.norm_url u with hr
  have hstrip : pyStripL r.data = r.data := by
    apply stripOn_eq_self
    · intro c hcd; rw [hh] at hcd
      cases hcd; decide
    · intro c hcd; rw [hl] at hcd
      cases hcd; decide
  have hne : r.data ≠ [] := by
    intro he; rw [he] at hh; simp at hh
  show GCP.norm_url r = r
  unfold GCP.norm_url
  simp only [hstrip, if_neg hne, if_pos hh, if_pos hl]
  rw [show collapseSlash r.data = r.data from hc.symm]

/-- C6: URL normalisation is idempotent — for every string `u`,
`norm_url (norm_url u) = norm_url u`, both for the `norm_url` of
scripts/generate_pages.py and for the slash-collapsing `norm_url` of
scripts/generate_chat_pages.py. -/
theorem c6_norm_url_idem :
    (∀ u : String, GP.norm_url (GP.norm_url u) = GP.norm_url u) ∧
      (∀ u : String, GCP.norm_url (GCP.norm_url u) = GCP.norm_url u) :=
  ⟨gp_norm_url_idem, gcp_norm_url_idem⟩

/-- C3 (counterexample): the claimed token grammar `label::url` / `label||url`
(split once, left anchor, right URL; separator-free token = bare URL) is not
what `parse_internal_links` implements.  On `"label||/chat/foo/"` the claim
yields one link with anchor `label` and target `/chat/foo/`, but the code
treats `||` as the between-token separator and drops both pipe-free tokens,
returning no link at all.  On `"/chat/a/|x||/chat/b/"` the code splits the
first token once on `|` with the **left** side the URL and the right side
the anchor (the claim's orientation reversed), and drops the second token.
On `"A::B"` the `::` is not a separator at all: the whole token becomes the
URL.  -/
theorem c3_link_token_counterexample :
    GP.parse_internal_links "label||/chat/foo/" = [] ∧
      GP.parse_internal_links "/chat/a/|x||/chat/b/" =
        [{ href := "/chat/a/", text := "x" }] ∧
      GP.parse_internal_links "A::B" = [{ href := "/A::B/", text := "" }] := by
  exact ⟨rfl, rfl, rfl⟩

theorem gp_parseTokens_eq (l : List String) :
    GP.parseTokens l = l.filterMap (fun p =>
      if strContains p "|" then
        some { href := GP.norm_url ⟨(splitOnce '|' p.data).1⟩,
               text := pyStrip ⟨(splitOnce '|' p.data).2⟩ }
      else none) := by
  induction l with
  | nil => rfl
  | cons p rest ih =>
    rw [List.filterMap_cons]
    by_cases h : strContains p "|"
    · simp only [GP.parseTokens, if_pos h, ih]
    · simp only [GP.parseTokens, if_neg h, ih]

/-- C3 (amended): the grammar the code actually implements — the field is
cut into tokens on `"||"`; a token containing `"|"` is split once on its
first `"|"`, the **left** side becoming the URL and the **right** side the
anchor text; a token without `"|"` is dropped; and a field containing no
`"||"` at all is split on single `"|"` into bare URLs with empty anchors.
`parse_internal_links_spec` states this reading directly and agrees with
the source loop on every input. -/
theorem c3_link_token_amended (s : String) :
    GP.parse_internal_links s = GP.parse_internal_links_spec s := by
  unfold GP.parse_internal_links GP.parse_internal_links_spec
  by_cases h0 : pyStrip s = ""
  · simp only [if_pos h0]
  · simp only [if_neg h0]
    by_cases h1 : strContains (pyStrip s) "||"
    · simp only [if_pos h1, gp_parseTokens_eq]
    · simp only [if_neg h1]

/-- C7 (counterexample): in scripts/generate_pages.py, when no candidate CSV
path exists the module raises `SystemExit("[ERR] CSV not found: ...")`,
which terminates the process with exit code 1 — not the claimed zero-page
exit 0. -/
theorem c7_missing_csv_counterexample :
    GP.startup (fun _ => false) =
      Except.error "[ERR] CSV not found: pages.csv or data/pages.csv" ∧
      pyExitCode (GP.startup (fun _ => false)) = 1 :=
  ⟨rfl, rfl⟩

/-- C7 (amended): only scripts/generate_feeds.py treats total CSV absence as
non-fatal — with no CSV and nothing under `docs/` it prints the "no data"
notice and returns 0, and its `main` returns exit code 0 on every input;
scripts/generate_pages.py instead aborts with a non-zero `SystemExit` as
soon as no candidate CSV exists (see the counterexample). -/
theorem c7_missing_csv_amended :
    (∀ now : String, GF.feeds_main none [] now =
      (0, ["ℹ️  Нет данных для фидов — пропускаю генерацию."])) ∧
      (∀ (csvOpt : Option (List GF.Row)) (docs : List String) (now : String),
        (GF.feeds_main csvOpt docs now).1 = 0) := by
  constructor
  · intro now; rfl
  · intro csvOpt docs now
    simp only [GF.feeds_main]
    split
    · split <;> rfl
    · rfl

/-- C5 (counterexample): `slug_from_url` of scripts/generate_pages.py does
not satisfy the claimed contract for every input: on the empty string it
returns the empty string (no `"page"` fallback), and it returns the last
path segment verbatim, so `"/Chat/Foo/"` yields `"Foo"`, which does not
match `^[a-z0-9-]+$`. -/
theorem c5_slug_counterexample :
    GP.slug_from_url "" = "" ∧ GP.slug_from_url "/Chat/Foo/" = "Foo" :=
  ⟨rfl, rfl⟩

/-- C1 (counterexample): autogen_seo.py's `html_page` interpolates the CSV
`title` with no escaping.  For a row whose title contains
`<script>alert(1)</script>`, the generated page (already within its head
portion, lines 308–339 of the source) contains that markup verbatim, and
does not contain its escaped form — the claimed "HTML-escaped before
interpolation, with no exceptions" safety invariant is violated. -/
theorem c1_escaping_counterexample :
    strContains
      (AGS.html_page_head_part
        (fun k =>
          if k = "title" then "Чат <script>alert(1)</script>"
          else if k = "keyword" then "чат"
          else if k = "slug" then "x"
          else if k = "description" then "просто чат"
          else "")
        "2025-01-01T00:00:00Z")
      "<script>alert(1)</script>" = true ∧
    strContains
      (AGS.html_page_head_part
        (fun k =>
          if k = "title" then "Чат <script>alert(1)</script>"
          else if k = "keyword" then "чат"
          else if k = "slug" then "x"
          else if k = "description" then "просто чат"
          else "")
        "2025-01-01T00:00:00Z")
      "&lt;script&gt;" = false := by
  exact ⟨rfl, rfl⟩

/-- C2 (counterexample): in scripts/generate_pages.py a FAQ pair whose
question is set but whose answer is empty is **not** excluded: `render_faq`
keeps every pair where either side is non-empty, so the rendered page for a
row with only `faq2_q = "Сколько стоит?"` contains that question inside the
HTML FAQ block. -/
theorem c2_faq_pairing_counterexample :
    strContains
      (GP.render_page
        (fun k =>
          if k = "url" then "/chat/x/"
          else if k = "title" then "Тест"
          else if k = "faq2_q" then "Сколько стоит?"
          else "") [] "2025-01-01T00:00:00+03:00")
      "<summary>Сколько стоит?</summary>" = true := by
  rfl

/-- C2 (amended): the both-non-empty pairing rule holds in
scripts/generate_chat_pages.py (`faq_items` keeps a numbered pair 1..10
exactly when both the trimmed question and the trimmed answer are
non-empty; the HTML FAQ block and the FAQPage JSON-LD are both rendered
from that list) and in autogen_seo.py (`html_page` keeps each of the pairs
1..3 exactly when both raw fields are non-empty, untrimmed); but in
scripts/generate_pages.py `render_faq` renders a pair whenever **either**
trimmed side is non-empty, so a question with an empty answer still
appears there. -/
theorem c2_faq_pairing_amended :
    (∀ (rec : GCP.Row) (p : String × String),
      p ∈ GCP.faq_items rec ↔
        ∃ i, i ∈ List.range' 1 10 ∧
          pyStrip (GCP.faqPair rec i).1 = p.1 ∧ pyStrip (GCP.faqPair rec i).2 = p.2 ∧
          p.1 ≠ "" ∧ p.2 ≠ "") ∧
    (∀ (row : AGS.Row) (p : String × String),
      p ∈ AGS.user_faqs row ↔
        ((p = (row "faq1_q", row "faq1_a") ∧ row "faq1_q" ≠ "" ∧ row "faq1_a" ≠ "") ∨
         (p = (row "faq2_q", row "faq2_a") ∧ row "faq2_q" ≠ "" ∧ row "faq2_a" ≠ "") ∨
         (p = (row "faq3_q", row "faq3_a") ∧ row "faq3_q" ≠ "" ∧ row "faq3_a" ≠ ""))) ∧
    (∀ q a : String, GP.render_faq [(q, a)] = "" ↔ (q = "" ∧ a = "")) := by
  refine ⟨?_, ?_, ?_⟩
  · intro rec p
    constructor
    · intro hp
      simp only [GCP.faq_items, List.mem_filterMap] at hp
      obtain ⟨i, hi, hf⟩ := hp
      by_cases hc : pyStrip (GCP.faqPair rec i).1 ≠ "" ∧ pyStrip (GCP.faqPair rec i).2 ≠ ""
      · rw [if_pos hc] at hf
        obtain ⟨hq, ha⟩ := hc
        cases hf
        exact ⟨i, hi, rfl, rfl, hq, ha⟩
      · rw [if_neg hc] at hf
        cases hf
    · rintro ⟨i, hi, hq, ha, hq0, ha0⟩
      simp only [GCP.faq_items, List.mem_filterMap]
      refine ⟨i, hi, ?_⟩
      rw [if_pos ⟨by rw [hq]; exact hq0, by rw [ha]; exact ha0⟩, hq, ha]
  · intro row p
    by_cases h1 : row "faq1_q" ≠ "" ∧ row "faq1_a" ≠ "" <;>
      by_cases h2 : row "faq2_q" ≠ "" ∧ row "faq2_a" ≠ "" <;>
        by_cases h3 : row "faq3_q" ≠ "" ∧ row "faq3_a" ≠ "" <;>
          simp [AGS.user_faqs, h1, h2, h3] <;> tauto
  · intro q a
    constructor
    · intro hc
      by_contra hna
      have hna' : ¬(q = "" ∧ a = "") := fun hx => hna hx
      simp only [GP.render_faq, List.filter_cons, List.filter_nil] at hc
      rw [if_pos (decide_eq_true hna')] at hc
      rw [if_neg (by simp)] at hc
      have hd := congrArg String.data hc
      simp at hd
    · rintro ⟨hq, ha⟩
      subst hq; subst ha
      rfl

theorem mem_enumFrom_fst_le {α : Type} (l : List α) (n : Nat) (p : Nat × α)
    (hp : p ∈ l.enumFrom n) : n ≤ p.1 := by
  induction l generalizing n with
  | nil => cases hp
  | cons a t ih =>
    rw [List.enumFrom_cons] at hp
    rcases List.mem_cons.mp hp with h1 | h1
    · subst h1; exact Nat.le_refl n
    · exact Nat.le_of_succ_le (ih (n + 1) h1)

theorem pairwise_fst_lt_enumFrom {α : Type} (l : List α) (n : Nat) :
    (l.enumFrom n).Pairwise (fun u v => u.1 < v.1) := by
  induction l generalizing n with
  | nil => exact List.Pairwise.nil
  | cons a t ih =>
    rw [List.enumFrom_cons]
    refine List.Pairwise.cons ?_ (ih (n + 1))
    intro v hv
    exact Nat.lt_of_lt_of_le (Nat.lt_succ_self n) (mem_enumFrom_fst_le t (n + 1) v hv)

theorem pairwise_filterMap_of {α β : Type} {S : α → α → Prop} {R : β → β → Prop}
    (f : α → Option β)
    (hS : ∀ a b x y, S a b → f a = some x → f b = some y → R x y) :
    ∀ l : List α, l.Pairwise S → (l.filterMap f).Pairwise R := by
  intro l hl
  induction l with
  | nil => exact List.Pairwise.nil
  | cons a t ih =>
    rw [List.filterMap_cons]
    obtain ⟨hhead, htail⟩ := List.pairwise_cons.mp hl
    cases hf : f a with
    | none => exact ih htail
    | some x =>
      refine List.Pairwise.cons ?_ (ih htail)
      intro y hy
      obtain ⟨b, hb, hfb⟩ := List.mem_filterMap.mp hy
      exact hS a b x y (hhead b hb) hf hfb

theorem enumFilterMap_map {α β γ : Type} (P : α → Prop) [DecidablePred P]
    (g : Nat → α → β) (hfun : β → γ) (h' : α → γ)
    (hg : ∀ i x, P x → hfun (g i x) = h' x)
    (l : List α) : ∀ n : Nat,
    ((l.enumFrom n).filterMap
      (fun p => if P p.2 then some (g p.1 p.2) else none)).map hfun =
      (l.filter (fun x => P x)).map h' := by
  induction l with
  | nil => intro n; rfl
  | cons a t ih =>
    intro n
    rw [List.enumFrom_cons, List.filterMap_cons, List.filter_cons]
    by_cases hc : P a
    · rw [if_pos hc, if_pos (by simpa using hc), List.map_cons, List.map_cons,
        hg n a hc, ih (n + 1)]
    · rw [if_neg hc, if_neg (by simpa using hc), ih (n + 1)]

theorem grs_rss_items_eq (rows : List GRS.Row) (now : Int) :
    GRS.rss_items rows now =
      (rows.reverse.enumFrom 0).filterMap (fun p =>
        if pyStrip (p.2 "url") ≠ "" then
          some
            ({ title := pyStrip (orS (p.2 "title") (pyStripSlash (pyStrip (p.2 "url")))),
               link := GRS.SITE_BASE ++ GRS.norm_url (pyStrip (p.2 "url")),
               desc := pyStrip (orS (p.2 "description") (p.2 "intro")),
               pub := now - 60 * (p.1 : Int) } : GRS.RssItem)
        else none) := by
  unfold GRS.rss_items
  rw [show rows.reverse.enum = rows.reverse.enumFrom 0 from rfl]
  apply List.filterMap_congr
  intro p _
  by_cases h : pyStrip (p.2 "url") = ""
  · simp [h]
  · simp [h]

/-- C9: the RSS writer (scripts/generate_rss.py; /generate_rss.py is the
same loop) emits items in reverse CSV row order — the titles/links/texts of
the emitted items are exactly those of the reversed row list filtered to
rows with a non-empty url, in that order — and the synthesised publication
instants (`now - i minutes` along the reversed enumeration) are strictly
decreasing along the emitted list. -/
theorem c9_rss_order (rows : List GRS.Row) (now : Int) :
    ((GRS.rss_items rows now).map (fun it => (it.title, it.link, it.desc)) =
      (rows.reverse.filter (fun r => pyStrip (r "url") ≠ "")).map
        (fun r =>
          (pyStrip (orS (r "title") (pyStripSlash (pyStrip (r "url")))),
           GRS.SITE_BASE ++ GRS.norm_url (pyStrip (r "url")),
           pyStrip (orS (r "description") (r "intro"))))) ∧
      (GRS.rss_items rows now).Pairwise (fun a b => b.pub < a.pub) := by
  constructor
  · rw [grs_rss_items_eq]
    exact enumFilterMap_map (fun r => pyStrip (r "url") ≠ "")
      (fun i r =>
        ({ title := pyStrip (orS (r "title") (pyStripSlash (pyStrip (r "url")))),
           link := GRS.SITE_BASE ++ GRS.norm_url (pyStrip (r "url")),
           desc := pyStrip (orS (r "description") (r "intro")),
           pub := now - 60 * (i : Int) } : GRS.RssItem))
      (fun it => (it.title, it.link, it.desc))
      (fun r =>
        (pyStrip (orS (r "title") (pyStripSlash (pyStrip (r "url")))),
         GRS.SITE_BASE ++ GRS.norm_url (pyStrip (r "url")),
         pyStrip (orS (r "description") (r "intro"))))
      (fun i x _ => rfl) rows.reverse 0
  · rw [grs_rss_items_eq]
    apply pairwise_filterMap_of _ _ _ (pairwise_fst_lt_enumFrom rows.reverse 0)
    intro a b x y hab hfa hfb
    by_cases ha : pyStrip (a.2 "url") = ""
    · rw [if_neg (by simpa using ha)] at hfa
      cases hfa
    · by_cases hb : pyStrip (b.2 "url") = ""
      · rw [if_neg (by simpa using hb)] at hfb
        cases hfb
      · rw [if_pos (by simpa using ha)] at hfa
        rw [if_pos (by simpa using hb)] at hfb
        cases hfa; cases hfb
        show now - 60 * (b.1 : Int) < now - 60 * (a.1 : Int)
        omega

theorem mem_insSorted (x a : String) (l : List String) :
    a ∈ AGS.insSorted x l ↔ a = x ∨ a ∈ l := by
  induction l with
  | nil => simp [AGS.insSorted]
  | cons y rest ih =>
    rw [AGS.insSorted]
    by_cases h : pyStrLe x y = true
    · rw [if_pos h]
      simp
    · rw [if_neg h]
      simp only [List.mem_cons, ih]
      tauto

theorem mem_sortStr (a : String) (l : List String) :
    a ∈ AGS.sortStr l ↔ a ∈ l := by
  induction l with
  | nil => simp [AGS.sortStr]
  | cons y rest ih =>
    rw [AGS.sortStr, mem_insSorted]
    simp only [List.mem_cons, ih]

/-- C10: the SEO auto-generator's load-time filter removes every CSV row
whose (stripped) title or keyword matches the blocklist case-insensitively:
no loaded row is blocked, every RSS item url is a generated url of a loaded
row, and every sitemap url is either one of the fixed base urls or a
generated url of a loaded row — so a blocked row contributes no HTML page,
no sitemap entry and no RSS item. -/
theorem c10_blocklist (csv : List AGS.Row) :
    (∀ r ∈ AGS.load_rows csv,
      AGS.blocked r.title = false ∧ AGS.blocked r.keyword = false) ∧
      (∀ u ∈ AGS.rss_urls csv, u ∈ AGS.generated_urls (AGS.load_rows csv)) ∧
      (∀ u ∈ AGS.sitemap_urls csv,
        u ∈ AGS.base_urls ∨ u ∈ AGS.generated_urls (AGS.load_rows csv)) := by
  refine ⟨?_, ?_, ?_⟩
  · intro r hr
    obtain ⟨raw, _, hf⟩ := List.mem_filterMap.mp hr
    dsimp only [AGS.load_rows] at hf
    split at hf
    · cases hf
    · split at hf
      · cases hf
      · rename_i h2
        cases hf
        push_neg at h2
        exact ⟨Bool.not_eq_true _ ▸ Bool.eq_false_iff.mpr h2.1,
          Bool.eq_false_iff.mpr h2.2⟩
  · intro u hu
    unfold AGS.rss_urls at hu
    exact (mem_sortStr u _).mp (List.mem_of_mem_drop hu)
  · intro u hu
    unfold AGS.sitemap_urls at hu
    have := List.mem_dedup.mp ((mem_sortStr u _).mp hu)
    exact List.mem_append.mp this

/-- C10 witness: a concrete batch — an unblocked row survives loading with
an unblocked title and keyword, its url is an RSS item url and a generated
url, and the site root is a sitemap url coming from the base paths. -/
theorem c10_blocklist_wit :
    (AGS.blocked ("Хороший чат") = false ∧ AGS.blocked ("чат") = false) ∧
      "https://gorod-legends.ru/requests/x/" ∈
        AGS.generated_urls (AGS.load_rows
          [fun k =>
            if k = "title" then "Хороший чат"
            else if k = "keyword" then "чат"
            else if k = "slug" then "x" else ""]) ∧
      ("https://gorod-legends.ru/" ∈ AGS.base_urls ∨
        "https://gorod-legends.ru/" ∈
          AGS.generated_urls (AGS.load_rows
            [fun k =>
              if k = "title" then "Хороший чат"
              else if k = "keyword" then "чат"
              else if k = "slug" then "x" else ""])) := by
  refine ⟨?_, ?_, ?_⟩
  · exact (c10_blocklist
      [fun k =>
        if k = "title" then "Хороший чат"
        else if k = "keyword" then "чат"
        else if k = "slug" then "x" else ""]).1
      ⟨"Хороший чат", "чат", "x"⟩ (by decide)
  · exact (c10_blocklist
      [fun k =>
        if k = "title" then "Хороший чат"
        else if k = "keyword" then "чат"
        else if k = "slug" then "x" else ""]).2.1
      "https://gorod-legends.ru/requests/x/" (by decide)
  · exact (c10_blocklist
      [fun k =>
        if k = "title" then "Хороший чат"
        else if k = "keyword" then "чат"
        else if k = "slug" then "x" else ""]).2.2
      "https://gorod-legends.ru/" (by decide)

theorem count_flatMap {α β : Type} [DecidableEq β] (f : α → List β) (x : β) :
    ∀ l : List α, (l.flatMap f).count x = (l.map (fun a => (f a).count x)).sum := by
  intro l
  induction l with
  | nil => rfl
  | cons a t ih =>
    rw [List.flatMap_cons, List.count_append, List.map_cons, List.sum_cons, ih]

theorem sum_map_const {α : Type} (k : Nat) (l : List α) :
    (l.map (fun _ => k)).sum = k * l.length := by
  induction l with
  | nil => simp
  | cons a t ih => rw [List.map_cons, List.sum_cons, ih, List.length_cons, Nat.mul_succ]; omega

theorem escChar_count (x c : Char) (hx : x = '<' ∨ x = '>' ∨ x = '"') :
    (escChar c).count x = 0 := by
  unfold escChar
  split_ifs with h1 h2 h3 h4 h5
  · rcases hx with h | h | h <;> subst h <;> decide
  · rcases hx with h | h | h <;> subst h <;> decide
  · rcases hx with h | h | h <;> subst h <;> decide
  · rcases hx with h | h | h <;> subst h <;> decide
  · rcases hx with h | h | h <;> subst h <;> decide
  · rw [List.count_eq_zero]
    intro hm
    rcases List.mem_singleton.mp hm with hcx
    rcases hx with h | h | h <;> subst h <;> subst hcx
    · exact h2 rfl
    · exact h3 rfl
    · exact h4 rfl

theorem escL_count (x : Char) (l : List Char) (hx : x = '<' ∨ x = '>' ∨ x = '"') :
    (escL l).count x = 0 := by
  unfold escL
  rw [count_flatMap]
  induction l with
  | nil => rfl
  | cons a t ih =>
    rw [List.map_cons, List.sum_cons, ih, escChar_count x a hx]

theorem interL_count (x : Char) (sep : List Char) (hsep : sep.count x = 0) :
    ∀ parts : List (List Char),
      (interL sep parts).count x = (parts.map (fun p => p.count x)).sum := by
  intro parts
  induction parts with
  | nil => rfl
  | cons a t ih =>
    cases t with
    | nil => simp [interL]
    | cons b r =>
      rw [show interL sep (a :: b :: r) = a ++ sep ++ interL sep (b :: r) from rfl]
      rw [List.count_append, List.count_append, hsep, ih]
      simp

theorem para_count (t : String) :
    (GP.para t).data.count '<' = 2 * (GP.para_parts t).length := by
  show (interL ("\n").data ((GP.para_parts t).map
    (fun p => ("<p>").data ++ escL p ++ ("</p>").data))).count '<' = _
  rw [interL_count '<' _ (by decide), List.map_map]
  have h2 : (List.map ((fun p => List.count '<' p) ∘ fun p => ("<p>").data ++ escL p ++ ("</p>").data) (GP.para_parts t)) =
      (GP.para_parts t).map (fun _ => 2) := by
    apply List.map_congr_left
    intro p _
    show (("<p>").data ++ escL p ++ ("</p>").data).count '<' = 2
    rw [List.count_append, List.count_append, escL_count '<' p (Or.inl rfl)]
    decide
  rw [h2, sum_map_const]

theorem render_list_count (items : List String) :
    (GP.render_list items).data.count '<' =
      if items = [] then 0 else 2 * items.length + 2 := by
  unfold GP.render_list
  by_cases h : items = []
  · rw [if_pos h, if_pos h]; rfl
  · rw [if_neg h, if_neg h]
    show (("<ul class=\x27ul\x27>").data ++
      (items.flatMap (fun x => ("<li>").data ++ escL x.data ++ ("</li>").data)) ++
      ("</ul>").data).count '<' = 2 * items.length + 2
    rw [List.count_append, List.count_append, count_flatMap]
    have h2 : items.map (fun x =>
        (("<li>").data ++ escL x.data ++ ("</li>").data).count '<') =
        items.map (fun _ => 2) := by
      apply List.map_congr_left
      intro p _
      rw [List.count_append, List.count_append, escL_count '<' p.data (Or.inl rfl)]
      decide
    rw [h2, sum_map_const,
      show (("<ul class=\x27ul\x27>").data).count '<' = 1 from by decide,
      show (("</ul>").data).count '<' = 1 from by decide]
    omega

theorem render_badges_count (items : List String) :
    (GP.render_badges items).data.count '<' =
      if items = [] then 0 else 2 * items.length + 2 := by
  unfold GP.render_badges
  by_cases h : items = []
  · rw [if_pos h, if_pos h]; rfl
  · rw [if_neg h, if_neg h]
    show (("<div class=\"pill-row\">").data ++
      (items.flatMap
        (fun x => ("<span class=\"pill\">").data ++ escL x.data ++ ("</span>").data)) ++
      ("</div>").data).count '<' = 2 * items.length + 2
    rw [List.count_append, List.count_append, count_flatMap]
    have h2 : items.map (fun x =>
        (("<span class=\"pill\">").data ++ escL x.data ++ ("</span>").data).count '<') =
        items.map (fun _ => 2) := by
      apply List.map_congr_left
      intro p _
      rw [List.count_append, List.count_append, escL_count '<' p.data (Or.inl rfl)]
      decide
    rw [h2, sum_map_const,
      show (("<div class=\"pill-row\">").data).count '<' = 1 from by decide,
      show (("</div>").data).count '<' = 1 from by decide]
    omega

theorem render_chips_count (items : List String) :
    (GP.render_chips items).data.count '<' =
      if items = [] then 0 else 2 * items.length + 2 := by
  unfold GP.render_chips
  by_cases h : items = []
  · rw [if_pos h, if_pos h]; rfl
  · rw [if_neg h, if_neg h]
    show (("<div class=\"chips\">").data ++
      (items.flatMap
        (fun x => ("<span class=\"chip\">").data ++ escL x.data ++ ("</span>").data)) ++
      ("</div>").data).count '<' = 2 * items.length + 2
    rw [List.count_append, List.count_append, count_flatMap]
    have h2 : items.map (fun x =>
        (("<span class=\"chip\">").data ++ escL x.data ++ ("</span>").data).count '<') =
        items.map (fun _ => 2) := by
      apply List.map_congr_left
      intro p _
      rw [List.count_append, List.count_append, escL_count '<' p.data (Or.inl rfl)]
      decide
    rw [h2, sum_map_const,
      show (("<div class=\"chips\">").data).count '<' = 1 from by decide,
      show (("</div>").data).count '<' = 1 from by decide]
    omega

theorem render_related_count (links : List GP.Link) :
    (GP.render_related links).data.count '<' =
      if links = [] then 0 else 2 * links.length + 2 := by
  unfold GP.render_related
  by_cases h : links = []
  · rw [if_pos h, if_pos h]; rfl
  · rw [if_neg h, if_neg h]
    show (("<div class=\"related\">").data ++
      (links.flatMap
        (fun l => ("<a class=\"chip link glow\" href=\"").data ++ escL l.href.data ++
          ("\">").data ++ escL l.text.data ++ ("</a>").data)) ++
      ("</div>").data).count '<' = 2 * links.length + 2
    rw [List.count_append, List.count_append, count_flatMap]
    have h2 : links.map (fun l =>
        (("<a class=\"chip link glow\" href=\"").data ++ escL l.href.data ++
          ("\">").data ++ escL l.text.data ++ ("</a>").data).count '<') =
        links.map (fun _ => 2) := by
      apply List.map_congr_left
      intro l _
      rw [List.count_append, List.count_append, List.count_append, List.count_append,
        escL_count '<' l.href.data (Or.inl rfl), escL_count '<' l.text.data (Or.inl rfl)]
      decide
    rw [h2, sum_map_const,
      show (("<div class=\"related\">").data).count '<' = 1 from by decide,
      show (("</div>").data).count '<' = 1 from by decide]
    omega

theorem render_faq_count (qas : List (String × String)) :
    (GP.render_faq qas).data.count '<' =
      (if qas.filter (fun p => ¬(p.1 = "" ∧ p.2 = "")) = [] then 0
       else ((qas.filter (fun p => ¬(p.1 = "" ∧ p.2 = ""))).map
          (fun p => 6 + 2 * (GP.para_parts p.2).length)).sum + 2) := by
  unfold GP.render_faq
  by_cases h : qas.filter (fun p => ¬(p.1 = "" ∧ p.2 = "")) = []
  · rw [if_pos h, if_pos h]; rfl
  · rw [if_neg h, if_neg h]
    set kept := qas.filter (fun p => ¬(p.1 = "" ∧ p.2 = "")) with hkept
    show (("<section class=\x27faq-wrap\x27>").data ++
      (kept.flatMap (fun p =>
        ("<details class=\"faq\">\n  <summary>").data ++ escL (orS p.1 "Вопрос").data ++
        ("</summary>\n  <div class=\"faq-a\">").data ++ (GP.para p.2).data ++
        ("</div>\n</details>").data)) ++
      ("</section>").data).count '<' = _
    rw [List.count_append, List.count_append, count_flatMap]
    have h2 : kept.map (fun p =>
        (("<details class=\"faq\">\n  <summary>").data ++ escL (orS p.1 "Вопрос").data ++
          ("</summary>\n  <div class=\"faq-a\">").data ++ (GP.para p.2).data ++
          ("</div>\n</details>").data).count '<') =
        kept.map (fun p => 6 + 2 * (GP.para_parts p.2).length) := by
      apply List.map_congr_left
      intro p _
      rw [List.count_append, List.count_append, List.count_append, List.count_append,
        escL_count '<' (orS p.1 "Вопрос").data (Or.inl rfl), para_count p.2,
        show (("<details class=\"faq\">\n  <summary>").data).count '<' = 2 from by decide,
        show (("</summary>\n  <div class=\"faq-a\">").data).count '<' = 2 from by decide,
        show (("</div>\n</details>").data).count '<' = 2 from by decide]
      omega
    rw [h2,
      show (("<section class=\x27faq-wrap\x27>").data).count '<' = 1 from by decide,
      show (("</section>").data).count '<' = 1 from by decide]
    omega

theorem render_scenarios_count (rows : List (String × String)) :
    (GP.render_scenarios rows).data.count '<' =
      (if rows.filter (fun p => ¬(p.1 = "" ∧ p.2 = "")) = [] then 0
       else ((rows.filter (fun p => ¬(p.1 = "" ∧ p.2 = ""))).map
          (fun p => 6 + 2 * (GP.para_parts p.2).length)).sum + 2) := by
  unfold GP.render_scenarios
  by_cases h : rows.filter (fun p => ¬(p.1 = "" ∧ p.2 = "")) = []
  · rw [if_pos h, if_pos h]; rfl
  · rw [if_neg h, if_neg h]
    set kept := rows.filter (fun p => ¬(p.1 = "" ∧ p.2 = "")) with hkept
    show (("<div class=\"grid-3\">").data ++
      (kept.flatMap (fun p =>
        ("<div class=\"card glow\">\n  <div class=\"card-title\">").data ++
        escL (orS p.1 "Сценарий").data ++
        ("</div>\n  <div class=\"card-text\">").data ++ (GP.para p.2).data ++
        ("</div>\n</div>").data)) ++
      ("</div>").data).count '<' = _
    rw [List.count_append, List.count_append, count_flatMap]
    have h2 : kept.map (fun p =>
        (("<div class=\"card glow\">\n  <div class=\"card-title\">").data ++
          escL (orS p.1 "Сценарий").data ++
          ("</div>\n  <div class=\"card-text\">").data ++ (GP.para p.2).data ++
          ("</div>\n</div>").data).count '<') =
        kept.map (fun p => 6 + 2 * (GP.para_parts p.2).length) := by
      apply List.map_congr_left
      intro p _
      rw [List.count_append, List.count_append, List.count_append, List.count_append,
        escL_count '<' (orS p.1 "Сценарий").data (Or.inl rfl), para_count p.2,
        show (("<div class=\"card glow\">\n  <div class=\"card-title\">").data).count '<' = 2 from by decide,
        show (("</div>\n  <div class=\"card-text\">").data).count '<' = 2 from by decide,
        show (("</div>\n</div>").data).count '<' = 2 from by decide]
      omega
    rw [h2,
      show (("<div class=\"grid-3\">").data).count '<' = 1 from by decide,
      show (("</div>").data).count '<' = 1 from by decide]
    omega

theorem h2_block_count (title text : String) :
    (GP.h2_block title text).data.count '<' =
      if title = "" ∧ text = "" then 0 else 4 + 2 * (GP.para_parts text).length := by
  unfold GP.h2_block
  by_cases h : title = "" ∧ text = ""
  · rw [if_pos h, if_pos h]; rfl
  · rw [if_neg h, if_neg h]
    show (("<section><h2>").data ++ escL title.data ++ ("</h2>").data ++
      (GP.para text).data ++ ("</section>").data).count '<' = _
    rw [List.count_append, List.count_append, List.count_append, List.count_append,
      escL_count '<' title.data (Or.inl rfl), para_count text,
      show (("<section><h2>").data).count '<' = 2 from by decide,
      show (("</h2>").data).count '<' = 1 from by decide,
      show (("</section>").data).count '<' = 1 from by decide]
    omega

/-- C1 (amended): in scripts/generate_pages.py every interpolated CSV value
really is escaped — `html_escape` output contains no `<`, `>` or `"` at
all, and each fragment builder's output contains exactly the `<` of its
fixed tags (a function of the list shape only, never of the field
contents): a malicious field cannot contribute markup to the page shell.
The counterexample shows autogen_seo.py's `html_page` has no such
property. -/
theorem c1_escaping_amended :
    (∀ s : String, (html_escape s).data.count '<' = 0 ∧
      (html_escape s).data.count '>' = 0 ∧ (html_escape s).data.count '"' = 0) ∧
    (∀ items : List String, (GP.render_list items).data.count '<' =
      if items = [] then 0 else 2 * items.length + 2) ∧
    (∀ items : List String, (GP.render_badges items).data.count '<' =
      if items = [] then 0 else 2 * items.length + 2) ∧
    (∀ items : List String, (GP.render_chips items).data.count '<' =
      if items = [] then 0 else 2 * items.length + 2) ∧
    (∀ links : List GP.Link, (GP.render_related links).data.count '<' =
      if links = [] then 0 else 2 * links.length + 2) ∧
    (∀ t : String, (GP.para t).data.count '<' = 2 * (GP.para_parts t).length) ∧
    (∀ title text : String, (GP.h2_block title text).data.count '<' =
      if title = "" ∧ text = "" then 0 else 4 + 2 * (GP.para_parts text).length) ∧
    (∀ qas : List (String × String), (GP.render_faq qas).data.count '<' =
      (if qas.filter (fun p => ¬(p.1 = "" ∧ p.2 = "")) = [] then 0
       else ((qas.filter (fun p => ¬(p.1 = "" ∧ p.2 = ""))).map
          (fun p => 6 + 2 * (GP.para_parts p.2).length)).sum + 2)) ∧
    (∀ rows : List (String × String), (GP.render_scenarios rows).data.count '<' =
      (if rows.filter (fun p => ¬(p.1 = "" ∧ p.2 = "")) = [] then 0
       else ((rows.filter (fun p => ¬(p.1 = "" ∧ p.2 = ""))).map
          (fun p => 6 + 2 * (GP.para_parts p.2).length)).sum + 2)) :=
  ⟨fun s => ⟨escL_count '<' s.data (Or.inl rfl), escL_count '>' s.data (Or.inr (Or.inl rfl)),
      escL_count '"' s.data (Or.inr (Or.inr rfl))⟩,
   render_list_count, render_badges_count, render_chips_count, render_related_count,
   para_count, h2_block_count, render_faq_count, render_scenarios_count⟩

theorem mem_collapseOn (k d : Char) (l : List Char) (hd : d ∈ collapseOn k l) :
    d ∈ l := by
  induction l with
  | nil => cases hd
  | cons b rest ih =>
    cases rest with
    | nil => exact hd
    | cons c r =>
      rw [collapseOn_cons_cons] at hd
      by_cases hbc : b = k ∧ c = k
      · rw [if_pos hbc] at hd
        exact List.mem_cons_of_mem b (ih hd)
      · rw [if_neg hbc] at hd
        rcases List.mem_cons.mp hd with h1 | h1
        · exact h1 ▸ List.mem_cons_self b (c :: r)
        · exact List.mem_cons_of_mem b (ih h1)

theorem mem_stripOn (p : Char → Bool) (d : Char) (l : List Char)
    (hd : d ∈ stripOn p l) : d ∈ l := by
  unfold stripOn at hd
  rw [List.mem_reverse] at hd
  have h1 := (List.dropWhile_sublist (l := (l.dropWhile p).reverse) p).subset hd
  rw [List.mem_reverse] at h1
  exact (List.dropWhile_sublist (l := l) p).subset h1

set_option maxHeartbeats 4000000 in
theorem slug_char_bounded : ∀ n : Nat, n < 0x452 →
    ∀ d ∈ AGS.slugChar (pyLowerChar (Char.ofNat n)), AGS.isSlugChar d = true := by
  decide

theorem asciiOrRu_lt (c : Char) (hc : AGS.asciiOrRu c = true) : c.toNat < 0x452 := by
  unfold AGS.asciiOrRu at hc
  simp only [Bool.or_eq_true, decide_eq_true_eq] at hc
  rcases hc with ((h | h) | h) | h
  · omega
  · omega
  · rw [h]; decide
  · rw [h]; decide

/-- C5 (amended): autogen_seo.py's `slugify` does satisfy the contract on
its working alphabet — for every input made of ASCII and Russian-Cyrillic
characters the result is non-empty (the empty normal form falls back to
`"page"`) and every character of the result is in `[a-z0-9-]`, i.e. the
result matches `^[a-z0-9-]+$`.  generate_pages.py's `slug_from_url`, by
contrast, returns the last path segment verbatim and may be empty or
carry arbitrary characters (see the counterexample). -/
theorem c5_slug_amended (s : String) (hs : ∀ c ∈ s.data, AGS.asciiOrRu c = true) :
    AGS.slugify s ≠ "" ∧ ∀ c ∈ (AGS.slugify s).data, AGS.isSlugChar c = true := by
  unfold AGS.slugify
  by_cases h : stripOn (fun c => c = '-')
      (collapseOn '-' ((pyLower (pyStrip s)).data.flatMap AGS.slugChar)) = []
  · rw [if_pos h]
    exact ⟨by decide, by decide⟩
  · rw [if_neg h]
    constructor
    · intro he
      have := congrArg String.data he
      simp only at this
      exact h this
    · intro c hc
      simp only at hc
      have h1 := mem_stripOn _ c _ hc
      have h2 := mem_collapseOn '-' c _ h1
      obtain ⟨a, ha, hca⟩ := List.mem_flatMap.mp h2
      have ha' : a ∈ (pyStripL s.data).map pyLowerChar := ha
      obtain ⟨b, hb, hba⟩ := List.mem_map.mp ha'
      have hbs : b ∈ s.data := mem_stripOn pySpace b s.data hb
      have hru : AGS.asciiOrRu b = true := hs b hbs
      have := slug_char_bounded b.toNat (asciiOrRu_lt b hru) c
      rw [Char.ofNat_toNat] at this
      exact this (hba ▸ hca)

/-- C5 witness: on the concrete Cyrillic input `"Привет, мир!"` the slug is
non-empty and matches `^[a-z0-9-]+$` (it is `"privet-mir"`), and an input
that normalises to empty falls back to `"page"`. -/
theorem c5_slug_amended_wit :
    (AGS.slugify "Привет, мир!" ≠ "" ∧
      ∀ c ∈ (AGS.slugify "Привет, мир!").data, AGS.isSlugChar c = true) ∧
      AGS.slugify "!!!" = "page" :=
  ⟨c5_slug_amended "Привет, мир!" (by decide), by decide⟩

theorem lookupA_cons_self (d : List (String × String)) (u t : String) :
    GP.lookupA ((u, t) :: d) u = some t := by
  simp [GP.lookupA, List.find?]

theorem lookupA_cons_ne (d : List (String × String)) (u' t' u : String)
    (h : u' ≠ u) : GP.lookupA ((u', t') :: d) u = GP.lookupA d u := by
  simp only [GP.lookupA, List.find?]
  rw [show (decide (u' = u)) = false from by simpa using h]

theorem csvIndexAux_append (l1 l2 : List GP.Row) : ∀ acc,
    GP.csvIndexAux acc (l1 ++ l2) = GP.csvIndexAux (GP.csvIndexAux acc l1) l2 := by
  induction l1 with
  | nil => intro acc; rfl
  | cons r rest ih =>
    intro acc
    simp only [List.cons_append, GP.csvIndexAux]
    by_cases h1 : GP.norm_url (r "url") = ""
    · rw [if_pos h1, if_pos h1]; exact ih acc
    · rw [if_neg h1, if_neg h1]
      by_cases h2 : GP.titleChain r = ""
      · rw [if_pos h2, if_pos h2]; exact ih acc
      · rw [if_neg h2, if_neg h2]; exact ih _

theorem lookupA_pagesAdd_of_some (pages : List (String × String)) :
    ∀ (idx : List (String × String)) (u t : String),
      GP.lookupA idx u = some t → GP.lookupA (GP.pagesAdd idx pages) u = some t := by
  induction pages with
  | nil => intro idx u t h; exact h
  | cons pg rest ih =>
    intro idx u t h
    obtain ⟨name, txt⟩ := pg
    simp only [GP.pagesAdd]
    split
    · exact ih idx u t h
    · rename_i hin
      split
      · rename_i h1 hx
        by_cases hh : h1 = ""
        · rw [if_pos hh]; exact ih idx u t h
        · rw [if_neg hh]
          apply ih
          by_cases hu : "/chat/" ++ name ++ "/" = u
          · exfalso; apply hin
            rw [hu, h]; rfl
          · rw [lookupA_cons_ne _ _ _ _ hu]; exact h
      · exact ih idx u t h

theorem lookupA_csvIndexAux_none (rows : List GP.Row) (u : String)
    (hrows : ∀ r ∈ rows, ¬(GP.norm_url (r "url") = u ∧ GP.titleChain r ≠ "")) :
    ∀ acc, GP.lookupA (GP.csvIndexAux acc rows) u = GP.lookupA acc u := by
  induction rows with
  | nil => intro acc; rfl
  | cons r rest ih =>
    intro acc
    have hr := hrows r (List.mem_cons_self r rest)
    have hrest : ∀ x ∈ rest, ¬(GP.norm_url (x "url") = u ∧ GP.titleChain x ≠ "") :=
      fun x hx => hrows x (List.mem_cons_of_mem r hx)
    simp only [GP.csvIndexAux]
    by_cases h1 : GP.norm_url (r "url") = ""
    · rw [if_pos h1]; exact ih hrest acc
    · rw [if_neg h1]
      by_cases h2 : GP.titleChain r = ""
      · rw [if_pos h2]; exact ih hrest acc
      · rw [if_neg h2, ih hrest]
        apply lookupA_cons_ne
        intro he
        exact hr ⟨he, h2⟩

/-- C4: the anchor-resolution chain of scripts/generate_pages.py, as one
statement.  (i) `enrich_related` treats each link independently; (ii) a
non-empty explicit label wins as the anchor text; (iii) with no label, the
batch's title index entry for the normalised url wins; (iv) with no label
and no index entry, the slug-derived pretty title is used; (v) in the index
built by `build_title_index`, on duplicate urls the later-loaded row's
title chain wins (appending a row with a non-empty url and title makes its
title the looked-up one, whatever came before); (vi) a url absent from the
CSV titles is filled from the first previously generated page of that name
whose scraped, tag-stripped `<h1>` is non-empty. -/
theorem c4_anchor_resolution :
    (∀ (l : GP.Link) (ls : List GP.Link) (idx : List (String × String)),
      GP.enrich_related (l :: ls) idx =
        GP.enrich_related [l] idx ++ GP.enrich_related ls idx) ∧
    (∀ (l : GP.Link) (idx : List (String × String)), pyStrip l.text ≠ "" →
      GP.enrich_related [l] idx = [{ href := GP.norm_url l.href, text := pyStrip l.text }]) ∧
    (∀ (l : GP.Link) (idx : List (String × String)) (t : String), pyStrip l.text = "" →
      GP.lookupA idx (GP.norm_url l.href) = some t → t ≠ "" →
      GP.enrich_related [l] idx = [{ href := GP.norm_url l.href, text := t }]) ∧
    (∀ (l : GP.Link) (idx : List (String × String)), pyStrip l.text = "" →
      GP.lookupA idx (GP.norm_url l.href) = none →
      GP.enrich_related [l] idx =
        [{ href := GP.norm_url l.href,
           text := GP.pretty_from_slug (GP.norm_url l.href) }]) ∧
    (∀ (rows : List GP.Row) (r : GP.Row) (pages : List (String × String)),
      GP.norm_url (r "url") ≠ "" → GP.titleChain r ≠ "" →
      GP.lookupA (GP.build_title_index (rows ++ [r]) pages) (GP.norm_url (r "url")) =
        some (GP.titleChain r)) ∧
    (∀ (rows : List GP.Row) (name txt h1 : String) (rest : List (String × String)),
      (∀ r ∈ rows, GP.norm_url (r "url") = "/chat/" ++ name ++ "/" →
        GP.titleChain r = "") →
      GP.extract_h1 txt = some h1 → h1 ≠ "" →
      GP.lookupA (GP.build_title_index rows ((name, txt) :: rest))
        ("/chat/" ++ name ++ "/") = some h1) := by
  refine ⟨?_, ?_, ?_, ?_, ?_, ?_⟩
  · intro l ls idx; rfl
  · intro l idx h
    simp only [GP.enrich_related, List.map_cons, List.map_nil]
    rw [if_neg h]
  · intro l idx t h hl ht
    simp only [GP.enrich_related, List.map_cons, List.map_nil]
    rw [if_pos h, hl]
    simp only [Option.getD_some]
    unfold orS
    rw [if_neg ht]
  · intro l idx h hl
    simp only [GP.enrich_related, List.map_cons, List.map_nil]
    rw [if_pos h, hl]
    rfl
  · intro rows r pages hu ht
    unfold GP.build_title_index
    apply lookupA_pagesAdd_of_some
    unfold GP.csvIndex
    rw [csvIndexAux_append]
    simp only [GP.csvIndexAux]
    rw [if_neg hu, if_neg ht]
    exact lookupA_cons_self _ _ _
  · intro rows name txt h1 rest hrows hx hh
    unfold GP.build_title_index
    have hnone : GP.lookupA (GP.csvIndex rows) ("/chat/" ++ name ++ "/") = none := by
      unfold GP.csvIndex
      rw [lookupA_csvIndexAux_none rows _ (fun r hr => fun hc => (hc.2 (hrows r hr hc.1)))]
      rfl
    simp only [GP.pagesAdd]
    rw [if_neg (by rw [hnone]; simp), hx]
    show GP.lookupA
      (if h1 = "" then GP.pagesAdd (GP.csvIndex rows) rest
       else GP.pagesAdd (("/chat/" ++ name ++ "/", h1) :: GP.csvIndex rows) rest)
      ("/chat/" ++ name ++ "/") = some h1
    rw [if_neg hh]
    exact lookupA_pagesAdd_of_some rest _ _ _ (lookupA_cons_self _ _ _)

/-- C4 witness: concrete instantiations of every part of the resolution
chain — an explicit label wins; with two batch rows sharing
`/chat/x/` the later title `"Новый"` is the one resolved; a url missing
from the CSV resolves to the `<h1>` scraped from the generated page; and
with nothing available the slug-derived `"Foo bar"` is used. -/
theorem c4_anchor_resolution_wit :
    GP.enrich_related [{ href := "/chat/foo/", text := " Метка " }] [] =
      [{ href := "/chat/foo/", text := "Метка" }] ∧
    GP.enrich_related [{ href := "/chat/x/", text := "" }]
      (GP.build_title_index
        [(fun k => if k = "url" then "/chat/x/" else if k = "title" then "Старый" else ""),
         (fun k => if k = "url" then "/chat/x/" else if k = "title" then "Новый" else "")]
        []) = [{ href := "/chat/x/", text := "Новый" }] ∧
    GP.lookupA (GP.build_title_index
        [(fun k => if k = "url" then "/chat/x/" else if k = "title" then "Старый" else ""),
         (fun k => if k = "url" then "/chat/x/" else if k = "title" then "Новый" else "")]
        []) "/chat/x/" = some "Новый" ∧
    GP.lookupA (GP.build_title_index [] [("bar", "<h1>Привет <b>мир</b></h1>")])
      "/chat/bar/" = some "Привет мир" ∧
    GP.enrich_related [{ href := "/chat/foo-bar/", text := "" }] [] =
      [{ href := "/chat/foo-bar/", text := "Foo bar" }] := by
  refine ⟨?_, ?_, ?_, ?_, ?_⟩
  · exact c4_anchor_resolution.2.1 { href := "/chat/foo/", text := " Метка " } []
      (by decide)
  · exact c4_anchor_resolution.2.2.1 { href := "/chat/x/", text := "" } _ "Новый"
      (by decide) (by decide) (by decide)
  · exact c4_anchor_resolution.2.2.2.2.1
      [(fun k => if k = "url" then "/chat/x/" else if k = "title" then "Старый" else "")]
      (fun k => if k = "url" then "/chat/x/" else if k = "title" then "Новый" else "")
      [] (by decide) (by decide)
  · exact c4_anchor_resolution.2.2.2.2.2 [] "bar" "<h1>Привет <b>мир</b></h1>"
      "Привет мир" [] (fun r hr => absurd hr (List.not_mem_nil r)) (by decide)
      (by decide)
  · exact c4_anchor_resolution.2.2.2.1 { href := "/chat/foo-bar/", text := "" } []
      (by decide) (by decide)

theorem mem_ite_cases {α : Type} {b : α} {c : Prop} [Decidable c] {l : List α}
    (h : b ∈ (if c then l else [])) : b ∈ l := by
  split at h
  · exact h
  · cases h

theorem para_data_nil (x : String) (h : (GP.para_parts x).length = 0) :
    (GP.para x).data = [] := by
  unfold GP.para
  rw [List.length_eq_zero.mp h]
  rfl

theorem escL_eq_self_of_no_amp : ∀ (l u : List Char), '&' ∉ u → escL l = u → l = u := by
  intro l
  induction l with
  | nil =>
    intro u _ he
    rw [← he]; rfl
  | cons c rest ih =>
    intro u hu he
    rw [show escL (c :: rest) = escChar c ++ escL rest from rfl] at he
    unfold escChar at he
    split_ifs at he with h1 h2 h3 h4 h5
    · exact absurd (by rw [← he]; exact List.mem_append_left _ (by decide)) hu
    · exact absurd (by rw [← he]; exact List.mem_append_left _ (by decide)) hu
    · exact absurd (by rw [← he]; exact List.mem_append_left _ (by decide)) hu
    · exact absurd (by rw [← he]; exact List.mem_append_left _ (by decide)) hu
    · exact absurd (by rw [← he]; exact List.mem_append_left _ (by decide)) hu
    · rw [← he]
      rw [← he] at hu
      have : rest = escL rest :=
        ih (escL rest) (fun hm => hu (List.mem_cons_of_mem c hm)) rfl
      rw [show [c] ++ escL rest = c :: escL rest from rfl, ← this]

theorem h2_block_ne_related (t x : String) (ht : t ≠ "Ещё по теме") :
    GP.h2_block t x ≠ "<section><h2>Ещё по теме</h2></section>" := by
  intro he
  unfold GP.h2_block at he
  by_cases hb : t = "" ∧ x = ""
  · rw [if_pos hb] at he
    exact absurd (congrArg String.data he) (by decide)
  · rw [if_neg hb] at he
    have hd : ("<section><h2>").data ++ escL t.data ++ ("</h2>").data ++
        (GP.para x).data ++ ("</section>").data =
        ("<section><h2>Ещё по теме</h2></section>").data := congrArg String.data he
    have hc : (("<section><h2>").data ++ escL t.data ++ ("</h2>").data ++
        (GP.para x).data ++ ("</section>").data).count '<' =
        (("<section><h2>Ещё по теме</h2></section>").data).count '<' := by rw [hd]
    rw [List.count_append, List.count_append, List.count_append, List.count_append,
      escL_count '<' t.data (Or.inl rfl), para_count x,
      show (("<section><h2>").data).count '<' = 2 from by decide,
      show (("</h2>").data).count '<' = 1 from by decide,
      show (("</section>").data).count '<' = 1 from by decide,
      show ((("<section><h2>Ещё по теме</h2></section>").data)).count '<' = 4 from by decide]
      at hc
    have hk : (GP.para_parts x).length = 0 := by omega
    rw [para_data_nil x hk] at hd
    rw [show ("<section><h2>Ещё по теме</h2></section>").data =
      ("<section><h2>").data ++ (("Ещё по теме").data ++
        (("</h2>").data ++ ("</section>").data)) from by decide] at hd
    simp only [List.append_nil, List.append_assoc] at hd
    have hd2 := List.append_cancel_left hd
    rw [show ("</h2>").data ++ ("</section>").data =
      ("</h2></section>").data from by decide] at hd2
    rw [show ("Ещё по теме").data ++ ("</h2></section>").data =
      ("Ещё по теме</h2></section>").data from by decide] at hd2
    rw [show ("Ещё по теме</h2></section>").data =
      ("Ещё по теме").data ++ ("</h2></section>").data from by decide] at hd2
    have hd3 : escL t.data ++ ("</h2></section>").data =
        ("Ещё по теме").data ++ ("</h2></section>").data := hd2
    have hd4 := List.append_cancel_right hd3
    have ht' := escL_eq_self_of_no_amp t.data (("Ещё по теме").data) (by decide) hd4
    exact ht (congrArg String.mk ht')

theorem render_faq_ne_related (qas : List (String × String)) :
    GP.render_faq qas ≠ "<section><h2>Ещё по теме</h2></section>" := by
  intro he
  simp only [GP.render_faq] at he
  split at he
  · exact absurd (congrArg String.data he) (by decide)
  · have hd := congrArg String.data he
    have h8 := congrArg (fun l => l[8]?) hd
    simp only at h8
    rw [show (("<section class=\x27faq-wrap\x27>").data ++ _ ++ ("</section>").data)[8]? =
      some ' ' from rfl] at h8
    exact absurd h8 (by decide)

theorem str_ne_of_idx (i : Nat) (a b : String) (c d : Char)
    (ha : a.data[i]? = some c) (hb : b.data[i]? = some d) (hcd : c ≠ d) :
    a ≠ b := by
  intro he
  rw [he, hb] at ha
  exact hcd (Option.some.inj ha.symm)

/-- C8 (amended): when the parsed related list of a row is empty,
scripts/generate_pages.py omits the related section entirely instead of
emitting a placeholder — `render_related []` is the empty string and no
related block appears among the page's body blocks (for rows whose `h2*`
headings do not themselves spell the related heading); when the list is
non-empty the block is present.  generate_chat_pages.py always emits the
"Ещё по теме" section shell, but `build_related` can return an empty card
list (e.g. for a single-row batch whose url is not one of the hard-coded
fallbacks), leaving the section body empty — neither script has a
"coming soon" placeholder for related links. -/
theorem c8_related_amended :
    (GP.render_related [] = "") ∧
    (∀ (row : GP.Row) (idx : List (String × String)),
      GP.enrich_related (GP.parse_internal_links (row "internal_links")) idx = [] →
      pyStrip (row "h2a_title") ≠ "Ещё по теме" →
      pyStrip (row "h2b_title") ≠ "Ещё по теме" →
      pyStrip (row "h2c_title") ≠ "Ещё по теме" →
      pyStrip (row "h2d_title") ≠ "Ещё по теме" →
      "<section><h2>Ещё по теме</h2></section>" ∉ GP.body_blocks row idx) ∧
    (∀ (row : GP.Row) (idx : List (String × String)),
      GP.enrich_related (GP.parse_internal_links (row "internal_links")) idx ≠ [] →
      ("<section><h2>Ещё по теме</h2>" ++
        GP.render_related
          (GP.enrich_related (GP.parse_internal_links (row "internal_links")) idx) ++
        "</section>") ∈ GP.body_blocks row idx) ∧
    (GCP.build_related [{ url := "/chat/solo/", title := "Solo", keyword := "" }]
      "/chat/solo/" [] 6).1 = "" := by
  refine ⟨rfl, ?_, ?_, rfl⟩
  · intro row idx hrel h1 h2 h3 h4 hmem
    simp only [GP.body_blocks] at hmem
    rw [hrel] at hmem
    rcases List.mem_append.mp hmem with h6 | hG
    rotate_left
    · rw [if_neg (fun hx => hx rfl)] at hG
      exact absurd hG (List.not_mem_nil _)
    rcases List.mem_append.mp h6 with h5 | hF
    rotate_left
    · exact render_faq_ne_related (GP.faqs_of row) (List.mem_singleton.mp hF).symm
    rcases List.mem_append.mp h5 with h4m | hE
    rotate_left
    · have := List.mem_singleton.mp (mem_ite_cases hE)
      exact absurd this (str_ne_of_idx 8 _ _ '>' ' ' rfl rfl (by decide))
    rcases List.mem_append.mp h4m with h3m | hD
    rotate_left
    · have := List.mem_singleton.mp (mem_ite_cases hD)
      exact absurd this (str_ne_of_idx 13 _ _ 'Е' 'С' rfl rfl (by decide))
    rcases List.mem_append.mp h3m with h2m | hC
    rotate_left
    · rcases List.mem_cons.mp hC with hx | hC
      · exact h2_block_ne_related _ _ h1 hx.symm
      rcases List.mem_cons.mp hC with hx | hC
      · exact h2_block_ne_related _ _ h2 hx.symm
      rcases List.mem_cons.mp hC with hx | hC
      · exact h2_block_ne_related _ _ h3 hx.symm
      rcases List.mem_cons.mp hC with hx | hC
      · exact h2_block_ne_related _ _ h4 hx.symm
      · exact absurd hC (List.not_mem_nil _)
    rcases List.mem_append.mp h2m with hA | hB
    · have := List.mem_singleton.mp (mem_ite_cases hA)
      exact absurd this (str_ne_of_idx 0 _ _ '<' '\n' rfl rfl (by decide))
    · have := List.mem_singleton.mp (mem_ite_cases hB)
      exact absurd this (str_ne_of_idx 0 _ _ '<' '\n' rfl rfl (by decide))
  · intro row idx hne
    simp only [GP.body_blocks]
    apply List.mem_append_right
    rw [if_pos hne]
    exact List.mem_singleton.mpr rfl

/-- C8 (counterexample): for a row with no related links the rendered page
of scripts/generate_pages.py contains no "Ещё по теме" heading and no
related-link container at all — the section is omitted, with no
placeholder, contradicting the claim that the section is never absent. -/
theorem c8_related_counterexample :
    strContains
      (GP.render_page
        (fun k =>
          if k = "url" then "/chat/x/"
          else if k = "title" then "Тест"
          else if k = "intro" then "Привет" else "") [] "2025-01-01T00:00:00+03:00")
      "Ещё по теме" = false ∧
    strContains
      (GP.render_page
        (fun k =>
          if k = "url" then "/chat/x/"
          else if k = "title" then "Тест"
          else if k = "intro" then "Привет" else "") [] "2025-01-01T00:00:00+03:00")
      "class=\"related\"" = false := by
  exact ⟨rfl, rfl⟩

/-- C8 witness: for a concrete row with an empty related field the related
block is absent from the body blocks, and for a concrete row with one
parsed link it is present. -/
theorem c8_related_amended_wit :
    "<section><h2>Ещё по теме</h2></section>" ∉
      GP.body_blocks
        (fun k =>
          if k = "url" then "/chat/x/"
          else if k = "title" then "Тест" else "") [] ∧
    ("<section><h2>Ещё по теме</h2>" ++
      GP.render_related
        (GP.enrich_related
          (GP.parse_internal_links
            ((fun k =>
              if k = "url" then "/chat/x/"
              else if k = "internal_links" then "/chat/a/|Ссылка||/chat/b/|Другая"
              else "") "internal_links")) []) ++
      "</section>") ∈
      GP.body_blocks
        (fun k =>
          if k = "url" then "/chat/x/"
          else if k = "internal_links" then "/chat/a/|Ссылка||/chat/b/|Другая"
          else "") [] := by
  constructor
  · exact c8_related_amended.2.1
      (fun k => if k = "url" then "/chat/x/" else if k = "title" then "Тест" else "")
      [] (by rfl) (by decide) (by decide) (by decide) (by decide)
  · exact c8_related_amended.2.2.1
      (fun k =>
        if k = "url" then "/chat/x/"
        else if k = "internal_links" then "/chat/a/|Ссылка||/chat/b/|Другая"
        else "") []
      (by decide)
